import Mathlib

/-!
Shallow embedding of `src/veracross_client/veracross_client.py` (class
`VeracrossClient`): the credential acquirer (`__init__`), the paginated
fetcher (`fetch_data_from_api`), the tabular flattener
(`expand_dict_columns`), a representative family of resource accessors, and
the class-body name-binding semantics (Python last-definition-wins).

Modelling conventions:
* Python values occurring in header/parameter/record dicts are embedded as
  `PyVal`; Python dicts are insertion-ordered association lists
  (`Dict α := List (String × α)`) with in-place update (`pySet`).
* A `pandas.DataFrame` built from a list of record dicts is embedded as the
  list of its rows (`DataFrame := List Rec`); `pd.DataFrame()` is `[]`.
* `requests.get` is a caller-supplied transport function; a Python
  exception escaping a piece of code is an `Except.error` carrying the
  message; an unterminated loop is `Option.none` of a fuel-indexed runner.
* `print` output is collected in `logs` fields.
-/

namespace Veracross

/-- Embedded Python values (the JSON-ish values this library moves around). -/
inductive PyVal where
  | null
  | int (n : Int)
  | str (s : String)
  | bool (b : Bool)
  | dict (fields : List (String × PyVal))
  | list (xs : List PyVal)

/-- A Python dict with `String` keys, as an insertion-ordered association list. -/
abbrev Dict (α : Type) := List (String × α)

/-- Python dict lookup `d[k]` (as an `Option`; `none` models `KeyError`). -/
def pyGet (d : Dict α) (k : String) : Option α :=
  match d with
  | [] => none
  | (k', v) :: t => if k' = k then some v else pyGet t k

/-- Python dict assignment `d[k] = v`: update in place if the key is
present (keeping its position), else append at the end. -/
def pySet (d : Dict α) (k : String) (v : α) : Dict α :=
  match d with
  | [] => [(k, v)]
  | (k', v') :: t => if k' = k then (k, v) :: t else (k', v') :: pySet t k v

/-- Remove the keys in `ks` from the dict (used for `df.drop(columns, axis=1)`). -/
def dropKeys (ks : List String) (d : Dict α) : Dict α :=
  d.filter (fun kv => !ks.contains kv.1)

theorem pyGet_pySet_self (d : Dict α) (k : String) (v : α) :
    pyGet (pySet d k v) k = some v := by
  induction d with
  | nil => simp [pyGet, pySet]
  | cons hd t ih =>
    obtain ⟨k₀, v₀⟩ := hd
    by_cases h : k₀ = k <;> simp [pyGet, pySet, h, ih]

theorem pyGet_pySet_ne (d : Dict α) (k k' : String) (v : α) (h : k' ≠ k) :
    pyGet (pySet d k v) k' = pyGet d k' := by
  have hne : ¬ (k = k') := fun hh => h hh.symm
  induction d with
  | nil => simp [pyGet, pySet, hne]
  | cons hd t ih =>
    obtain ⟨k₀, v₀⟩ := hd
    by_cases hk : k₀ = k
    · subst hk
      simp [pyGet, pySet, hne]
    · by_cases hk' : k₀ = k' <;> simp [pyGet, pySet, hk, hk', hne, h, ih]

theorem pySet_pySet (d : Dict α) (k : String) (v w : α) :
    pySet (pySet d k v) k w = pySet d k w := by
  induction d with
  | nil => simp [pySet]
  | cons hd t ih =>
    obtain ⟨k₀, v₀⟩ := hd
    by_cases h : k₀ = k <;> simp [pySet, h, ih]

/-- Writing back the value already present leaves the dict unchanged. -/
theorem pySet_self (d : Dict α) (k : String) (v : α)
    (h : pyGet d k = some v) : pySet d k v = d := by
  induction d with
  | nil => simp [pyGet] at h
  | cons hd t ih =>
    obtain ⟨k₀, v₀⟩ := hd
    by_cases hk : k₀ = k
    · subst hk
      simp [pyGet] at h
      simp [pySet, h]
    · simp [pyGet, hk] at h
      simp [pySet, hk, ih h]

/-! ### Python `str`/`int` round trip

The fetcher stores the page number as a string
(`headers['X-Page-Number'] = str(int(headers['X-Page-Number']) + 1)`), so we
need that Lean's decimal printer `Nat.repr` (our embedding of `str` on
non-negative ints) is inverted by `String.toNat?` (our embedding of `int`). -/

theorem digitChar_toNat (d : Nat) (h : d < 10) : (Nat.digitChar d).toNat = 48 + d := by
  interval_cases d <;> decide

theorem digitChar_isDigit (d : Nat) (h : d < 10) : (Nat.digitChar d).isDigit = true := by
  interval_cases d <;> decide

theorem toDigitsCore_digits :
    ∀ (fuel n : Nat) (ds : List Char), (∀ c ∈ ds, c.isDigit = true) → n < fuel →
      ∀ c ∈ Nat.toDigitsCore 10 fuel n ds, c.isDigit = true := by
  intro fuel
  induction fuel with
  | zero => intro n ds _ h; omega
  | succ f ih =>
    intro n ds hds _
    have hd : ∀ c ∈ (Nat.digitChar (n % 10) :: ds), c.isDigit = true := by
      intro c hc
      rcases List.mem_cons.mp hc with h | h
      · subst h; exact digitChar_isDigit _ (Nat.mod_lt _ (by omega))
      · exact hds c h
    simp only [Nat.toDigitsCore]
    split
    · exact hd
    · rename_i hne
      intro c hc
      have hlt : n / 10 < f := by
        have h10 : 10 ≤ n := by
          by_contra hcon
          exact hne (Nat.div_eq_of_lt (by omega))
        have := Nat.div_lt_self (show 0 < n by omega) (show 1 < 10 by omega)
        omega
      exact ih (n / 10) _ hd hlt c hc

theorem toDigitsCore_ne_nil :
    ∀ (fuel n : Nat) (ds : List Char), n < fuel →
      Nat.toDigitsCore 10 fuel n ds ≠ [] := by
  intro fuel
  induction fuel with
  | zero => intro n ds h; omega
  | succ f ih =>
    intro n ds _
    simp only [Nat.toDigitsCore]
    split
    · simp
    · rename_i hne
      have hlt : n / 10 < f := by
        have h10 : 10 ≤ n := by
          by_contra hcon
          exact hne (Nat.div_eq_of_lt (by omega))
        have := Nat.div_lt_self (show 0 < n by omega) (show 1 < 10 by omega)
        omega
      exact ih (n / 10) _ hlt

/-- `10 ^ (number of decimal digits of n)`. -/
def pow10len (n : Nat) : Nat :=
  if n < 10 then 10 else 10 * pow10len (n / 10)
decreasing_by exact Nat.div_lt_self (by omega) (by omega)

theorem foldl_toDigitsCore :
    ∀ (fuel n : Nat) (ds : List Char) (a : Nat), n < fuel →
      List.foldl (fun m c => m * 10 + (c.toNat - Char.toNat (Char.ofNat 48))) a
          (Nat.toDigitsCore 10 fuel n ds) =
        List.foldl (fun m c => m * 10 + (c.toNat - Char.toNat (Char.ofNat 48))) (a * pow10len n + n) ds := by
  intro fuel
  induction fuel with
  | zero => intro n ds a h; omega
  | succ f ih =>
    intro n ds a _
    have hmod : (Nat.digitChar (n % 10)).toNat = 48 + n % 10 :=
      digitChar_toNat _ (Nat.mod_lt _ (by omega))
    have h0 : Char.toNat (Char.ofNat 48) = 48 := by decide
    simp only [Nat.toDigitsCore]
    split
    · rename_i heq
      have hn : n < 10 := by omega
      have hmodn : n % 10 = n := Nat.mod_eq_of_lt hn
      have hmod2 : n.digitChar.toNat = 48 + n := by rw [hmodn] at hmod; exact hmod
      simp only [List.foldl, hmodn, hmod2, h0]
      rw [pow10len]
      simp only [hn, if_true]
      have h48 : a * 10 + (48 + n - 48) = a * 10 + n := by omega
      rw [h48]
    · rename_i hne
      have h10 : 10 ≤ n := by
        by_contra hcon
        exact hne (Nat.div_eq_of_lt (by omega))
      have hlt : n / 10 < f := by
        have := Nat.div_lt_self (show 0 < n by omega) (show 1 < 10 by omega)
        omega
      rw [ih (n / 10) _ a hlt]
      simp only [List.foldl, hmod, h0]
      have hpow : pow10len n = 10 * pow10len (n / 10) := by
        rw [pow10len]; simp [show ¬ n < 10 by omega]
      rw [hpow]
      have h48 : 48 + n % 10 - 48 = n % 10 := by omega
      rw [h48]
      have hsplit : (a * pow10len (n / 10) + n / 10) * 10 + n % 10
          = a * (10 * pow10len (n / 10)) + (n / 10 * 10 + n % 10) := by ring
      rw [hsplit]
      have hdm : n / 10 * 10 + n % 10 = n := by omega
      rw [hdm]

/-- Decimal-printing a natural number and parsing it back is the identity. -/
theorem toNat?_repr (n : Nat) : String.toNat? (Nat.repr n) = some n := by
  have hne := toDigitsCore_ne_nil (n + 1) n [] (Nat.lt_succ_self n)
  have hdig := toDigitsCore_digits (n + 1) n [] (by simp) (Nat.lt_succ_self n)
  have hfold := foldl_toDigitsCore (n + 1) n [] 0 (Nat.lt_succ_self n)
  have hdata : (Nat.repr n).data = Nat.toDigitsCore 10 (n + 1) n [] := rfl
  have hempty : (Nat.repr n).isEmpty = false := by
    rw [Bool.eq_false_iff]
    intro hc
    rw [String.isEmpty_iff] at hc
    exact hne (by rw [← hdata, hc])
  have hall : (Nat.repr n).all (·.isDigit) = true := by
    rw [String.all_eq, hdata]
    rw [List.all_eq_true]
    intro c hc
    exact hdig c hc
  rw [String.toNat?, String.isNat, hempty, hall]
  simp only [Bool.not_false, Bool.and_self, if_true]
  rw [String.foldl_eq, hdata, hfold]
  simp

/-! ### The paginated fetcher `fetch_data_from_api` (source lines 43-75)

```python
headers['Authorization'] = f"Bearer {self.access_token}"
data = []
while True:
    response = requests.get(f"{self.base_url}/{endpoint}", headers=headers, params=params)
    if response.status_code == 200:
        chunk_data = response.json().get('data', [])
        data.extend(chunk_data)
        if chunk_data == []:
            break
        headers['X-Page-Number'] = str(int(headers['X-Page-Number']) + 1)
    else:
        print(f"Error: {response.status_code} - {response.text}")
        break
return data
```
-/

/-- A record (row) returned by the API: one element of the response's
`data` array. -/
abbrev Rec := Dict PyVal

/-- Header dict: Python string keys to arbitrary Python values (accessors
put `None` in headers such as `X-API-Revision`). -/
abbrev Headers := Dict PyVal

/-- Query-parameter / request-body dict. -/
abbrev Params := Dict PyVal

/-- An HTTP response as this library observes it: `status_code`, the
`data` array of `response.json()` (`[]` when absent), and `text`. -/
structure Resp where
  status : Nat
  data : List Rec
  text : String

/-- One HTTP request as issued by the library (endpoint path, header dict,
and query-parameter or body dict). -/
inductive HttpCall where
  | get (endpoint : String) (headers : Headers) (params : Params)
  | post (endpoint : String) (headers : Headers) (body : Params)
  | patch (endpoint : String) (headers : Headers) (body : Params)
  | delete (endpoint : String) (headers : Headers)

/-- The HTTP layer: answers each request with a response, or raises
(`Except.error` models an exception out of `requests`). -/
abbrev Transport := HttpCall → Except String Resp

def HttpCall.isGet : HttpCall → Bool
  | .get _ _ _ => true
  | _ => false

def HttpCall.headers : HttpCall → Headers
  | .get _ h _ => h
  | .post _ h _ => h
  | .patch _ h _ => h
  | .delete _ h => h

/-- Outcome of one run of the fetch loop: the value of `return data` (or
the exception escaping the loop), the final state of the (mutated) header
dict, the headers of each GET issued in order, and the printed lines. -/
structure FetchResult where
  ret : Except String (List Rec)
  headers : Headers
  sent : List Headers
  logs : List String

/-- The `while True` loop of `fetch_data_from_api`, run with `fuel`
remaining iterations (`none` = the loop is still running after `fuel`
GETs). `send` is one GET to the fixed endpoint/params with the given
headers. Missing `X-Page-Number` models Python's `KeyError`, a
non-string value `TypeError` (from `int(...)`), an unparsable string
`ValueError`; all three escape the loop uncaught. -/
def fetchLoop (send : Headers → Except String Resp) : Nat → Headers → List Rec → Option FetchResult
  | 0, _, _ => none
  | fuel + 1, headers, data =>
    match send headers with
    | .error e => some ⟨.error e, headers, [headers], []⟩
    | .ok response =>
      if response.status = 200 then
        let data' := data ++ response.data
        if response.data.isEmpty then
          some ⟨.ok data', headers, [headers], []⟩
        else
          match pyGet headers "X-Page-Number" with
          | none => some ⟨.error "KeyError: X-Page-Number", headers, [headers], []⟩
          | some (PyVal.str s) =>
            match String.toNat? s with
            | none => some ⟨.error ("ValueError: invalid literal for int: " ++ s), headers, [headers], []⟩
            | some n =>
              match fetchLoop send fuel (pySet headers "X-Page-Number" (PyVal.str (Nat.repr (n + 1)))) data' with
              | none => none
              | some r => some { r with sent := headers :: r.sent }
          | some _ => some ⟨.error "TypeError: int() argument", headers, [headers], []⟩
      else
        some ⟨.ok data, headers,  [headers],
              ["Error: " ++ Nat.repr response.status ++ " - " ++ response.text]⟩

/-- `fetch_data_from_api(self, endpoint, headers, params)`: overwrites the
`Authorization` header with the bearer token, then runs the GET loop.
`access_token` is the string the token is formatted from. -/
def fetch_data_from_api (access_token : String) (tr : Transport) (fuel : Nat)
    (endpoint : String) (headers : Headers) (params : Params) : Option FetchResult :=
  fetchLoop (fun h => tr (HttpCall.get endpoint h params)) fuel
    (pySet headers "Authorization" (PyVal.str ("Bearer " ++ access_token))) []

/-- A server whose answer depends only on the `X-Page-Number` header of
the GET request (the page the client asks for). Used to state the
pagination claims; requests whose page header is absent or non-numeric get
page 0's answer (the claims never exercise that case). -/
def pageAnswer (pages : Nat → Resp) (h : Headers) : Except String Resp :=
  match pyGet h "X-Page-Number" with
  | some (PyVal.str s) =>
    match String.toNat? s with
    | some n => .ok (pages n)
    | none => .ok (pages 0)
  | _ => .ok (pages 0)

def pageServer (pages : Nat → Resp) : Transport :=
  fun c => pageAnswer pages c.headers

/-- First-to-last concatenation of the `data` arrays of pages
`0, ..., n-1` of `f`. -/
def pagesConcat (f : Nat → List Rec) : Nat → List Rec
  | 0 => []
  | n + 1 => f 0 ++ pagesConcat (fun i => f (i + 1)) n

/-- The header dicts of `n` successive requests, as produced by `g`. -/
def sentHeaders (g : Nat → Headers) : Nat → List Headers
  | 0 => []
  | n + 1 => g 0 :: sentHeaders (fun i => g (i + 1)) n

/-- Main run lemma for the fetch loop against a page-indexed server:
starting at page `k`, after `n` non-empty success pages the loop stops at
page `k + n` (an empty page or a non-success status), returning the
first-to-last concatenation, having sent `n + 1` GETs with the page header
advancing by one each time, and leaving `X-Page-Number = k + n` in the
mutated header dict. -/
theorem fetchLoop_run (pages : Nat → Resp) :
    ∀ (n : Nat) (hdr : Headers) (k : Nat) (acc : List Rec) (fuel : Nat),
      pyGet hdr "X-Page-Number" = some (PyVal.str (Nat.repr k)) →
      (∀ i, i < n → (pages (k + i)).status = 200 ∧ (pages (k + i)).data ≠ []) →
      ((pages (k + n)).status ≠ 200 ∨ (pages (k + n)).data = []) →
      n + 1 ≤ fuel →
      fetchLoop (pageAnswer pages) fuel hdr acc =
        some ⟨.ok (acc ++ pagesConcat (fun i => (pages (k + i)).data) n),
              pySet hdr "X-Page-Number" (PyVal.str (Nat.repr (k + n))),
              sentHeaders (fun i => pySet hdr "X-Page-Number" (PyVal.str (Nat.repr (k + i)))) (n + 1),
              if (pages (k + n)).status = 200 then []
              else ["Error: " ++ Nat.repr (pages (k + n)).status ++ " - " ++ (pages (k + n)).text]⟩ := by
  intro n
  induction n with
  | zero =>
    intro hdr k acc fuel hpage _ hstop hfuel
    obtain ⟨f, rfl⟩ : ∃ f, fuel = f + 1 := ⟨fuel - 1, by omega⟩
    have hans : pageAnswer pages hdr = .ok (pages k) := by
      simp [pageAnswer, hpage, toNat?_repr]
    have hself : pySet hdr "X-Page-Number" (PyVal.str (Nat.repr k)) = hdr :=
      pySet_self hdr _ _ hpage
    rcases hstop with hbad | hempty
    · have h200 : ¬ (pages k).status = 200 := by simpa using hbad
      simp [fetchLoop, hans, h200, pagesConcat, sentHeaders, hself]
    · have hemp : (pages k).data = [] := by simpa using hempty
      by_cases h200 : (pages k).status = 200 <;>
        simp [fetchLoop, hans, h200, hemp, pagesConcat, sentHeaders, hself]
  | succ n ih =>
    intro hdr k acc fuel hpage hgood hstop hfuel
    obtain ⟨f, rfl⟩ : ∃ f, fuel = f + 1 := ⟨fuel - 1, by omega⟩
    have hans : pageAnswer pages hdr = .ok (pages k) := by
      simp [pageAnswer, hpage, toNat?_repr]
    obtain ⟨h200, hne⟩ := hgood 0 (Nat.succ_pos n)
    have h200k : (pages k).status = 200 := by simpa using h200
    have hnek : (pages k).data ≠ [] := by simpa using hne
    have hrec := ih (pySet hdr "X-Page-Number" (PyVal.str (Nat.repr (k + 1))))
      (k + 1) (acc ++ (pages k).data) f
      (pyGet_pySet_self _ _ _)
      (fun i hi => by
        have := hgood (i + 1) (by omega)
        constructor
        · have : k + (i + 1) = k + 1 + i := by omega
          rw [← this]; exact (hgood (i + 1) (by omega)).1
        · have : k + (i + 1) = k + 1 + i := by omega
          rw [← this]; exact (hgood (i + 1) (by omega)).2)
      (by have : k + 1 + n = k + (n + 1) := by omega
          rw [this]; exact hstop)
      (by omega)
    have hselfk : pySet hdr "X-Page-Number" (PyVal.str (Nat.repr k)) = hdr :=
      pySet_self hdr _ _ hpage
    simp only [fetchLoop, hans, h200k, if_true, List.isEmpty_eq_true, hnek, if_false,
      hpage, toNat?_repr, hrec]
    refine congrArg some ?_
    refine FetchResult.mk.injEq .. |>.mpr ?_
    refine ⟨?_, ?_, ?_, ?_⟩
    · show Except.ok (acc ++ (pages k).data ++ pagesConcat (fun i => (pages (k + 1 + i)).data) n)
        = Except.ok (acc ++ pagesConcat (fun i => (pages (k + i)).data) (n + 1))
      have hfe : (fun i => (pages (k + 1 + i)).data) = (fun i => (pages (k + (i + 1))).data) := by
        funext i
        have : k + 1 + i = k + (i + 1) := by omega
        rw [this]
      rw [hfe]
      simp [pagesConcat, List.append_assoc]
    · show pySet (pySet hdr "X-Page-Number" (PyVal.str (Nat.repr (k + 1)))) "X-Page-Number"
          (PyVal.str (Nat.repr (k + 1 + n)))
        = pySet hdr "X-Page-Number" (PyVal.str (Nat.repr (k + (n + 1))))
      rw [pySet_pySet]
      have : k + 1 + n = k + (n + 1) := by omega
      rw [this]
    · show hdr :: sentHeaders (fun i => pySet (pySet hdr "X-Page-Number" (PyVal.str (Nat.repr (k + 1))))
            "X-Page-Number" (PyVal.str (Nat.repr (k + 1 + i)))) (n + 1)
        = sentHeaders (fun i => pySet hdr "X-Page-Number" (PyVal.str (Nat.repr (k + i)))) (n + 1 + 1)
      have hfe : (fun i => pySet (pySet hdr "X-Page-Number" (PyVal.str (Nat.repr (k + 1))))
            "X-Page-Number" (PyVal.str (Nat.repr (k + 1 + i))))
          = (fun i => pySet hdr "X-Page-Number" (PyVal.str (Nat.repr (k + (i + 1))))) := by
        funext i
        rw [pySet_pySet]
        have : k + 1 + i = k + (i + 1) := by omega
        rw [this]
      rw [hfe]
      show _ = pySet hdr "X-Page-Number" (PyVal.str (Nat.repr (k + 0))) ::
        sentHeaders (fun i => pySet hdr "X-Page-Number" (PyVal.str (Nat.repr (k + (i + 1))))) (n + 1)
      simp [hselfk]
    · show (if (pages (k + 1 + n)).status = 200 then ([] : List String)
          else ["Error: " ++ Nat.repr (pages (k + 1 + n)).status ++ " - " ++ (pages (k + 1 + n)).text])
        = _
      have : k + 1 + n = k + (n + 1) := by omega
      rw [this]

/-- If every page from `k` on is a non-empty success page, the loop runs
out of any amount of fuel: it never terminates. -/
theorem fetchLoop_diverge (pages : Nat → Resp) :
    ∀ (fuel : Nat) (hdr : Headers) (k : Nat) (acc : List Rec),
      pyGet hdr "X-Page-Number" = some (PyVal.str (Nat.repr k)) →
      (∀ m, k ≤ m → (pages m).status = 200 ∧ (pages m).data ≠ []) →
      fetchLoop (pageAnswer pages) fuel hdr acc = none := by
  intro fuel
  induction fuel with
  | zero => intro hdr k acc _ _; rfl
  | succ f ih =>
    intro hdr k acc hpage hall
    have hans : pageAnswer pages hdr = .ok (pages k) := by
      simp [pageAnswer, hpage, toNat?_repr]
    obtain ⟨h200, hne⟩ := hall k (le_refl k)
    have hrec := ih (pySet hdr "X-Page-Number" (PyVal.str (Nat.repr (k + 1)))) (k + 1)
      (acc ++ (pages k).data) (pyGet_pySet_self _ _ _) (fun m hm => hall m (by omega))
    simp only [fetchLoop, hans, h200, if_true, List.isEmpty_eq_true, hne, if_false,
      hpage, toNat?_repr, hrec]

/-- Fuel monotonicity: a run that finishes within `fuel` iterations
finishes identically with any larger fuel. -/
theorem fetchLoop_mono (send : Headers → Except String Resp) :
    ∀ (fuel fuel' : Nat) (hdr : Headers) (acc : List Rec) (r : FetchResult),
      fetchLoop send fuel hdr acc = some r → fuel ≤ fuel' →
      fetchLoop send fuel' hdr acc = some r := by
  intro fuel
  induction fuel with
  | zero => intro fuel' hdr acc r h; simp [fetchLoop] at h
  | succ f ih =>
    intro fuel' hdr acc r h hle
    obtain ⟨f', rfl⟩ : ∃ f', fuel' = f' + 1 := ⟨fuel' - 1, by omega⟩
    simp only [fetchLoop] at h ⊢
    cases hsend : send hdr with
    | error e => simp only [hsend] at h ⊢; exact h
    | ok response =>
      simp only [hsend] at h ⊢
      by_cases h200 : response.status = 200
      · simp only [h200, if_true] at h ⊢
        by_cases hemp : response.data.isEmpty
        · simp only [hemp, if_true] at h ⊢; exact h
        · simp only [hemp, if_false, Bool.false_eq_true] at h ⊢
          cases hpg : pyGet hdr "X-Page-Number" with
          | none => simp only [hpg] at h ⊢; exact h
          | some v =>
            cases v with
            | str s =>
              simp only [hpg] at h ⊢
              cases hparse : String.toNat? s with
              | none => simp only [hparse] at h ⊢; exact h
              | some n =>
                simp only [hparse] at h ⊢
                cases hrec : fetchLoop send f
                    (pySet hdr "X-Page-Number" (PyVal.str (Nat.repr (n + 1))))
                    (acc ++ response.data) with
                | none => rw [hrec] at h; cases h
                | some r0 =>
                  rw [hrec] at h
                  rw [ih f' _ _ r0 hrec (by omega)]
                  exact h
            | null => simp only [hpg] at h ⊢; exact h
            | int m => simp only [hpg] at h ⊢; exact h
            | bool b => simp only [hpg] at h ⊢; exact h
            | dict l => simp only [hpg] at h ⊢; exact h
            | list l => simp only [hpg] at h ⊢; exact h
      · simp only [h200, if_false] at h ⊢; exact h

/-- The loop terminates on some amount of fuel. -/
def fetchTerminates (send : Headers → Except String Resp) (hdr : Headers) : Prop :=
  ∃ fuel r, fetchLoop send fuel hdr [] = some r

/-- `fetch_data_from_api` terminates on some amount of fuel. -/
def fetchApiTerminates (access_token : String) (tr : Transport) (endpoint : String)
    (headers : Headers) (params : Params) : Prop :=
  ∃ fuel r, fetch_data_from_api access_token tr fuel endpoint headers params = some r

theorem fetch_data_from_api_pageServer (pages : Nat → Resp) (token endpoint : String)
    (hdr : Headers) (params : Params) (fuel : Nat) :
    fetch_data_from_api token (pageServer pages) fuel endpoint hdr params =
      fetchLoop (pageAnswer pages) fuel
        (pySet hdr "Authorization" (PyVal.str ("Bearer " ++ token))) [] := rfl

theorem mem_sentHeaders :
    ∀ (m : Nat) (g : Nat → Headers) (hs : Headers),
      hs ∈ sentHeaders g m → ∃ i, i < m ∧ hs = g i := by
  intro m
  induction m with
  | zero => intro g hs h; simp [sentHeaders] at h
  | succ m ih =>
    intro g hs h
    rcases List.mem_cons.mp h with h0 | h0
    · exact ⟨0, by omega, h0⟩
    · obtain ⟨i, hi, hgi⟩ := ih (fun i => g (i + 1)) hs h0
      exact ⟨i + 1, by omega, hgi⟩

theorem length_sentHeaders :
    ∀ (m : Nat) (g : Nat → Headers), (sentHeaders g m).length = m := by
  intro m
  induction m with
  | zero => intro g; rfl
  | succ m ih => intro g; simp [sentHeaders, ih]

/-- The server of C1's scenario: page 1 answers `p1`, page 2 answers `p2`,
every other page is an empty success page. -/
def threePages (p1 p2 : List Rec) : Nat → Resp :=
  fun n =>
    if n = 1 then ⟨200, p1, ""⟩
    else if n = 2 then ⟨200, p2, ""⟩
    else ⟨200, [], ""⟩

/-- C1: against a server answering success pages `[p1, p2, []]` in order,
`fetch_data_from_api` returns `p1 ++ p2` in first-to-last page order, the
loop issues exactly three GET requests, and the `X-Page-Number` header
sent on those requests advances `"1", "2", "3"`. -/
theorem fetch_three_pages_spec (p1 p2 : List Rec) (hp1 : p1 ≠ []) (hp2 : p2 ≠ [])
    (token endpoint : String) (hdr : Headers) (params : Params) (fuel : Nat)
    (hpage : pyGet hdr "X-Page-Number" = some (PyVal.str "1"))
    (hfuel : 3 ≤ fuel) :
    ∃ r : FetchResult,
      fetch_data_from_api token (pageServer (threePages p1 p2)) fuel endpoint hdr params = some r ∧
      r.ret = .ok (p1 ++ p2) ∧
      r.sent.length = 3 ∧
      r.sent.map (fun h => pyGet h "X-Page-Number") =
        [some (PyVal.str "1"), some (PyVal.str "2"), some (PyVal.str "3")] := by
  rw [fetch_data_from_api_pageServer]
  have hpage' : pyGet (pySet hdr "Authorization" (PyVal.str ("Bearer " ++ token)))
      "X-Page-Number" = some (PyVal.str (Nat.repr 1)) := by
    rw [pyGet_pySet_ne _ _ _ _ (by decide)]
    exact hpage
  have hrun := fetchLoop_run (threePages p1 p2) 2
    (pySet hdr "Authorization" (PyVal.str ("Bearer " ++ token))) 1 [] fuel hpage'
    (by
      intro i hi
      interval_cases i
      · constructor
        · rfl
        · simpa [threePages] using hp1
      · constructor
        · rfl
        · simpa [threePages] using hp2)
    (by right; rfl)
    (by omega)
  refine ⟨_, hrun, ?_, ?_, ?_⟩
  · simp [pagesConcat, threePages]
  · simp [length_sentHeaders]
  · simp only [sentHeaders]
    simp only [List.map_cons, List.map_nil, pyGet_pySet_self]
    rfl

/-- C2: when the GET for page `k + n` answers a non-success status after
`n` non-empty success pages, the fetcher logs the status and body via
`print`, stops, and returns the records accumulated from the earlier pages
as an ordinary `Except.ok` result. With `n = 0` (the witness): a
first-page non-200 response yields the empty list after exactly one GET. -/
theorem fetch_nonsuccess_partial_result (pages : Nat → Resp) (n k : Nat)
    (token endpoint : String) (hdr : Headers) (params : Params) (fuel : Nat)
    (hpage : pyGet hdr "X-Page-Number" = some (PyVal.str (Nat.repr k)))
    (hgood : ∀ i, i < n → (pages (k + i)).status = 200 ∧ (pages (k + i)).data ≠ [])
    (hbad : (pages (k + n)).status ≠ 200)
    (hfuel : n + 1 ≤ fuel) :
    ∃ r : FetchResult,
      fetch_data_from_api token (pageServer pages) fuel endpoint hdr params = some r ∧
      r.ret = .ok (pagesConcat (fun i => (pages (k + i)).data) n) ∧
      r.sent.length = n + 1 ∧
      r.logs = ["Error: " ++ Nat.repr (pages (k + n)).status ++ " - " ++ (pages (k + n)).text] := by
  rw [fetch_data_from_api_pageServer]
  have hpage' : pyGet (pySet hdr "Authorization" (PyVal.str ("Bearer " ++ token)))
      "X-Page-Number" = some (PyVal.str (Nat.repr k)) := by
    rw [pyGet_pySet_ne _ _ _ _ (by decide)]
    exact hpage
  have hrun := fetchLoop_run pages n
    (pySet hdr "Authorization" (PyVal.str ("Bearer " ++ token))) k [] fuel hpage'
    hgood (Or.inl hbad) hfuel
  refine ⟨_, hrun, by simp, by simp [length_sentHeaders], by simp [hbad]⟩

/-- C10: `fetch_data_from_api` mutates the caller's header dict: it
overwrites `Authorization` with `"Bearer <token>"` (whatever the caller
put there) before the first request and on every request sent, and when it
returns via the empty-page branch after `n` non-empty pages the caller's
`X-Page-Number` entry equals the initial page number plus `n`; every other
key of the header dict (`X-Page-Size` included) is unchanged. In the
embedding the mutated dict is the `headers` field of the result. -/
theorem fetch_mutates_headers (pages : Nat → Resp) (n k : Nat)
    (token endpoint : String) (hdr : Headers) (params : Params) (fuel : Nat)
    (hpage : pyGet hdr "X-Page-Number" = some (PyVal.str (Nat.repr k)))
    (hgood : ∀ i, i < n → (pages (k + i)).status = 200 ∧ (pages (k + i)).data ≠ [])
    (hstat : (pages (k + n)).status = 200)
    (hemp : (pages (k + n)).data = [])
    (hfuel : n + 1 ≤ fuel) :
    ∃ r : FetchResult,
      fetch_data_from_api token (pageServer pages) fuel endpoint hdr params = some r ∧
      pyGet r.headers "Authorization" = some (PyVal.str ("Bearer " ++ token)) ∧
      (∀ hs ∈ r.sent, pyGet hs "Authorization" = some (PyVal.str ("Bearer " ++ token))) ∧
      pyGet r.headers "X-Page-Number" = some (PyVal.str (Nat.repr (k + n))) ∧
      pyGet r.headers "X-Page-Size" = pyGet hdr "X-Page-Size" ∧
      (∀ key, key ≠ "Authorization" → key ≠ "X-Page-Number" →
        pyGet r.headers key = pyGet hdr key) := by
  rw [fetch_data_from_api_pageServer]
  have hpage' : pyGet (pySet hdr "Authorization" (PyVal.str ("Bearer " ++ token)))
      "X-Page-Number" = some (PyVal.str (Nat.repr k)) := by
    rw [pyGet_pySet_ne _ _ _ _ (by decide)]
    exact hpage
  have hrun := fetchLoop_run pages n
    (pySet hdr "Authorization" (PyVal.str ("Bearer " ++ token))) k [] fuel hpage'
    hgood (Or.inr hemp) hfuel
  refine ⟨_, hrun, ?_, ?_, ?_, ?_, ?_⟩
  · show pyGet (pySet _ "X-Page-Number" _) "Authorization" = _
    rw [pyGet_pySet_ne _ _ _ _ (by decide), pyGet_pySet_self]
  · intro hs hmem
    obtain ⟨i, _, rfl⟩ := mem_sentHeaders _ _ hs hmem
    rw [pyGet_pySet_ne _ _ _ _ (by decide), pyGet_pySet_self]
  · exact pyGet_pySet_self _ _ _
  · show pyGet (pySet _ "X-Page-Number" _) "X-Page-Size" = _
    rw [pyGet_pySet_ne _ _ _ _ (by decide)]
    rw [pyGet_pySet_ne _ _ _ _ (by decide)]
  · intro key hka hkp
    show pyGet (pySet _ "X-Page-Number" _) key = _
    rw [pyGet_pySet_ne _ _ _ _ hkp, pyGet_pySet_ne _ _ _ _ hka]

/-- C7: the fetch loop has no maximum-iteration bound. It terminates (for
some fuel) iff some page at or after the starting page is an empty page or
a non-success page; if every page is a non-empty success page it never
terminates (no fuel suffices); and if page `m ≥ k` is empty or
non-success it terminates within `m - k + 1` iterations — for the
conventional start page `k = 1` that is within `m` iterations. -/
theorem fetch_termination_characterization (pages : Nat → Resp) (k : Nat)
    (token endpoint : String) (hdr : Headers) (params : Params)
    (hpage : pyGet hdr "X-Page-Number" = some (PyVal.str (Nat.repr k))) :
    (fetchApiTerminates token (pageServer pages) endpoint hdr params ↔
      ∃ m, k ≤ m ∧ ((pages m).status ≠ 200 ∨ (pages m).data = [])) ∧
    ((∀ m, k ≤ m → (pages m).status = 200 ∧ (pages m).data ≠ []) →
      ∀ fuel, fetch_data_from_api token (pageServer pages) fuel endpoint hdr params = none) ∧
    (∀ m, k ≤ m → ((pages m).status ≠ 200 ∨ (pages m).data = []) →
      ∃ r, fetch_data_from_api token (pageServer pages) (m - k + 1) endpoint hdr params = some r) := by
  classical
  have hpage' : pyGet (pySet hdr "Authorization" (PyVal.str ("Bearer " ++ token)))
      "X-Page-Number" = some (PyVal.str (Nat.repr k)) := by
    rw [pyGet_pySet_ne _ _ _ _ (by decide)]
    exact hpage
  have hdiv : (∀ m, k ≤ m → (pages m).status = 200 ∧ (pages m).data ≠ []) →
      ∀ fuel, fetch_data_from_api token (pageServer pages) fuel endpoint hdr params = none := by
    intro hall fuel
    rw [fetch_data_from_api_pageServer]
    exact fetchLoop_diverge pages fuel _ k [] hpage' hall
  have hterm : ∀ m, k ≤ m → ((pages m).status ≠ 200 ∨ (pages m).data = []) →
      ∃ r, fetch_data_from_api token (pageServer pages) (m - k + 1) endpoint hdr params = some r := by
    intro m hkm hstop
    have hex : ∃ j, ((pages (k + j)).status ≠ 200 ∨ (pages (k + j)).data = []) := by
      refine ⟨m - k, ?_⟩
      have hkm' : k + (m - k) = m := by omega
      rw [hkm']
      exact hstop
    set j0 := Nat.find hex with hj0def
    have hj0 := Nat.find_spec hex
    have hj0le : j0 ≤ m - k := Nat.find_min' hex (by
      have hkm' : k + (m - k) = m := by omega
      rw [hkm']
      exact hstop)
    have hgood : ∀ i, i < j0 → (pages (k + i)).status = 200 ∧ (pages (k + i)).data ≠ [] := by
      intro i hi
      have := Nat.find_min hex hi
      push_neg at this
      exact this
    have hrun := fetchLoop_run pages j0
      (pySet hdr "Authorization" (PyVal.str ("Bearer " ++ token))) k [] (j0 + 1) hpage'
      hgood hj0 (le_refl _)
    rw [fetch_data_from_api_pageServer]
    exact ⟨_, fetchLoop_mono _ (j0 + 1) (m - k + 1) _ _ _ hrun (by omega)⟩
  refine ⟨?_, hdiv, hterm⟩
  constructor
  · intro htermi
    by_contra hno
    push_neg at hno
    have hall : ∀ m, k ≤ m → (pages m).status = 200 ∧ (pages m).data ≠ [] := by
      intro m hm
      have := hno m hm
      exact this
    obtain ⟨fuel, r, hr⟩ := htermi
    rw [hdiv hall fuel] at hr
    cases hr
  · intro ⟨m, hkm, hstop⟩
    obtain ⟨r, hr⟩ := hterm m hkm hstop
    exact ⟨m - k + 1, r, hr⟩

/-! ### The credential acquirer (`__init__`, source lines 32-41)

```python
res = conn.getresponse()
data = json.loads(res.read().decode())
try:
    self.access_token = data['access_token']
except KeyError:
    print(f"Error: {data['error_description']}")
```

The token-endpoint response body is a JSON object `data`. The embedding
returns the resulting `access_token` attribute (`none` = the attribute was
never assigned) together with the printed lines, or `Except.error` for an
exception escaping `__init__`: the `print` in the `except KeyError` arm
itself evaluates `data['error_description']`, whose `KeyError` is not
caught by the surrounding `try`. -/

/-- Python `str()` / f-string formatting of an embedded value (only the
shapes this library formats). -/
def pyStr : PyVal → String
  | .null => "None"
  | .int n => toString n
  | .str s => s
  | .bool true => "True"
  | .bool false => "False"
  | .dict _ => "<dict>"
  | .list _ => "<list>"

def acquireToken (data : Dict PyVal) : Except String (Option PyVal × List String) :=
  match pyGet data "access_token" with
  | some tok => .ok (some tok, [])
  | none =>
    match pyGet data "error_description" with
    | some desc => .ok (none, ["Error: " ++ pyStr desc])
    | none => .error "KeyError: error_description"

/-! ### The tabular flattener `expand_dict_columns` (source lines 77-109)

```python
expanded_rows = []
for _, row in df.iterrows():
    values_to_add = {}
    for column in columns_to_expand:
        dictionary = row[column]
        if dictionary is not None:
            for key, value in dictionary.items():
                new_col_name = f"{column}_{key}"
                values_to_add[new_col_name] = value
    expanded_rows.append(values_to_add)
expanded_df = pd.DataFrame(expanded_rows)
df = pd.concat([df.drop(columns_to_expand, axis=1), expanded_df], axis=1)
return df
```

A frame is embedded as its list of rows; `pd.concat(..., axis=1)` with
positionally indexed frames pairs row `i` of the dropped frame with row
`i` of the expanded frame. A missing column label raises `KeyError`; a
present value that is neither `None` nor a dict raises `AttributeError`
at `.items()`. -/

/-- The inner `for column in columns_to_expand` loop building
`values_to_add` for one row. -/
def valuesToAdd (columns_to_expand : List String) (row : Rec) : Except String Rec :=
  columns_to_expand.foldlM
    (fun values_to_add column =>
      match pyGet row column with
      | none => .error ("KeyError: " ++ column)
      | some PyVal.null => .ok values_to_add
      | some (PyVal.dict fields) =>
        .ok (fields.foldl
          (fun acc kv => pySet acc (column ++ "_" ++ kv.1) kv.2) values_to_add)
      | some _ => .error "AttributeError: items") []

def expand_dict_columns (df : List Rec) (columns_to_expand : List String) :
    Except String (List Rec) := do
  let expanded_rows ← df.mapM (valuesToAdd columns_to_expand)
  return List.zipWith (fun row vals => dropKeys columns_to_expand row ++ vals)
    df expanded_rows

/-- The prefixed key/value pairs contributed by the expandable columns of
one row, in column order then key order, values copied verbatim (one level
of nesting only). -/
def expandPairs (cols : List String) (row : Rec) : Rec :=
  cols.foldl
    (fun acc column =>
      match pyGet row column with
      | some (PyVal.dict fields) =>
        acc ++ fields.map (fun kv => (column ++ "_" ++ kv.1, kv.2))
      | _ => acc) []

/-- The prefixed column names generated for one row. -/
def genKeys (cols : List String) (row : Rec) : List String :=
  (cols.map (fun column =>
    match pyGet row column with
    | some (PyVal.dict fields) => fields.map (fun kv => column ++ "_" ++ kv.1)
    | _ => [])).flatten

theorem pyGet_eq_none_of_not_mem_keys (d : Dict α) (k : String)
    (h : k ∉ d.map Prod.fst) : pyGet d k = none := by
  induction d with
  | nil => rfl
  | cons hd t ih =>
    obtain ⟨k₀, v₀⟩ := hd
    simp only [List.map_cons, List.mem_cons] at h
    push_neg at h
    obtain ⟨h1, h2⟩ := h
    have hne : ¬ k₀ = k := fun hh => h1 hh.symm
    simp [pyGet, hne, ih h2]

theorem pySet_append_fresh (d : Dict α) (k : String) (v : α)
    (h : pyGet d k = none) : pySet d k v = d ++ [(k, v)] := by
  induction d with
  | nil => rfl
  | cons hd t ih =>
    obtain ⟨k₀, v₀⟩ := hd
    by_cases hk : k₀ = k
    · simp [pyGet, hk] at h
    · simp [pyGet, hk] at h
      simp [pySet, hk, ih h]

theorem foldl_pySet_fresh (pre : String) :
    ∀ (fields : List (String × PyVal)) (acc : Rec),
      ((acc.map Prod.fst) ++ fields.map (fun kv => pre ++ "_" ++ kv.1)).Nodup →
      fields.foldl (fun a kv => pySet a (pre ++ "_" ++ kv.1) kv.2) acc
        = acc ++ fields.map (fun kv => (pre ++ "_" ++ kv.1, kv.2)) := by
  intro fields
  induction fields with
  | nil => intro acc _; simp
  | cons kv t ih =>
    intro acc hnd
    obtain ⟨k, v⟩ := kv
    have hnotin : (pre ++ "_" ++ k) ∉ acc.map Prod.fst := by
      intro hmem
      rcases List.nodup_append.mp hnd with ⟨_, _, hdisj⟩
      exact hdisj hmem (by simp)
    have hset : pySet acc (pre ++ "_" ++ k) v = acc ++ [(pre ++ "_" ++ k, v)] :=
      pySet_append_fresh _ _ _ (pyGet_eq_none_of_not_mem_keys _ _ hnotin)
    simp only [List.foldl_cons, hset]
    rw [ih (acc ++ [(pre ++ "_" ++ k, v)]) (by
      simp only [List.map_append, List.map_cons, List.map_nil] at hnd ⊢
      simpa [List.append_assoc] using hnd)]
    simp

theorem ok_bind {ε α β : Type} (a : α) (f : α → Except ε β) :
    (Except.ok a >>= f : Except ε β) = f a := rfl

theorem valuesToAdd_ok (row : Rec) :
    ∀ (cols : List String) (acc : Rec),
      (∀ c ∈ cols, ∃ v, pyGet row c = some v ∧
        (v = PyVal.null ∨ ∃ l, v = PyVal.dict l)) →
      ((acc.map Prod.fst) ++ genKeys cols row).Nodup →
      cols.foldlM
        (fun values_to_add column =>
          match pyGet row column with
          | none => Except.error ("KeyError: " ++ column)
          | some PyVal.null => Except.ok values_to_add
          | some (PyVal.dict fields) =>
            Except.ok (fields.foldl
              (fun (acc : Rec) (kv : String × PyVal) =>
                pySet acc (column ++ "_" ++ kv.1) kv.2) values_to_add)
          | some _ => Except.error "AttributeError: items") acc
      = .ok (cols.foldl
          (fun (acc : Rec) column =>
            match pyGet row column with
            | some (PyVal.dict fields) =>
              acc ++ fields.map (fun (kv : String × PyVal) =>
                (column ++ "_" ++ kv.1, kv.2))
            | _ => acc) acc) := by
  intro cols
  induction cols with
  | nil => intro acc _ _; rfl
  | cons c t ih =>
    intro acc hwf hnd
    obtain ⟨v, hv, hshape⟩ := hwf c (by simp)
    rcases hshape with hnull | ⟨l, hdict⟩
    · subst hnull
      simp only [List.foldlM_cons, List.foldl_cons, hv, ok_bind]
      exact ih acc (fun c hc => hwf c (by simp [hc]))
        (by simpa [genKeys, hv] using hnd)
    · subst hdict
      simp only [List.foldlM_cons, List.foldl_cons, hv, ok_bind]
      have hnd0 : ((acc.map Prod.fst) ++ l.map (fun kv => c ++ "_" ++ kv.1)).Nodup := by
        have hsub : ((acc.map Prod.fst) ++ l.map (fun kv => c ++ "_" ++ kv.1)).Sublist
            ((acc.map Prod.fst) ++
              (l.map (fun kv => c ++ "_" ++ kv.1) ++ genKeys t row)) := by
          rw [← List.append_assoc]
          exact List.sublist_append_left _ _
        refine List.Nodup.sublist hsub ?_
        simpa [genKeys, hv] using hnd
      rw [foldl_pySet_fresh c l acc hnd0]
      exact ih (acc ++ l.map (fun kv => (c ++ "_" ++ kv.1, kv.2)))
        (fun c hc => hwf c (by simp [hc]))
        (by
          have hkeys : (acc ++ l.map (fun kv => (c ++ "_" ++ kv.1, kv.2))).map Prod.fst
              = acc.map Prod.fst ++ l.map (fun kv => c ++ "_" ++ kv.1) := by
            simp [List.map_map, Function.comp]
          rw [hkeys, List.append_assoc]
          simpa [genKeys, hv] using hnd)

theorem mapM_ok {ε α β : Type} (f : α → Except ε β) (g : α → β) :
    ∀ (xs : List α), (∀ x ∈ xs, f x = .ok (g x)) → xs.mapM f = .ok (xs.map g) := by
  intro xs
  induction xs with
  | nil => intro _; rfl
  | cons x t ih =>
    intro h
    rw [List.mapM_cons, h x (by simp), ih (fun y hy => h y (by simp [hy]))]
    rfl

/-- C6: for each record and each named column whose value is present (not
`None`), `expand_dict_columns` merges the nested dict's pairs into the
record under `"<column>_<key>"` names with the nested values copied
verbatim (one level only, no recursion), and drops the original named
columns; in particular `[{"a": {"x": 1, "y": 2}, "b": 5}]` with
`columns_to_expand = ["a"]` yields `[{"b": 5, "a_x": 1, "a_y": 2}]`. The
general part assumes the generated names do not collide (`hfresh`), which
is what makes the dict-insert loop an append. -/
theorem expand_dict_columns_spec (df : List Rec) (cols : List String)
    (hwf : ∀ row ∈ df, ∀ c ∈ cols, ∃ v, pyGet row c = some v ∧
      (v = PyVal.null ∨ ∃ l, v = PyVal.dict l))
    (hfresh : ∀ row ∈ df, (genKeys cols row).Nodup) :
    expand_dict_columns df cols =
      .ok (df.map (fun row => dropKeys cols row ++ expandPairs cols row)) ∧
    expand_dict_columns
        [[("a", PyVal.dict [("x", PyVal.int 1), ("y", PyVal.int 2)]),
          ("b", PyVal.int 5)]] ["a"] =
      .ok [[("b", PyVal.int 5), ("a_x", PyVal.int 1), ("a_y", PyVal.int 2)]] := by
  constructor
  · have hmap : df.mapM (valuesToAdd cols) = .ok (df.map (expandPairs cols)) := by
      apply mapM_ok
      intro row hrow
      exact valuesToAdd_ok row cols [] (hwf row hrow)
        (by simpa using hfresh row hrow)
    show (df.mapM (valuesToAdd cols) >>= fun expanded_rows =>
        pure (List.zipWith (fun row vals => dropKeys cols row ++ vals) df expanded_rows)) = _
    rw [hmap, ok_bind]
    have hz : ∀ (l : List Rec),
        List.zipWith (fun row vals => dropKeys cols row ++ vals) l
          (l.map (expandPairs cols)) =
        l.map (fun row => dropKeys cols row ++ expandPairs cols row) := by
      intro l
      induction l with
      | nil => rfl
      | cons r t ih => simp [ih]
    rw [hz df]
    rfl
  · rfl

/-! ### The client object and its construction -/

/-- The state of a `VeracrossClient` object after `__init__`.
`access_token = none` means the attribute was never assigned (reading it
raises `AttributeError`). -/
structure VeracrossClient where
  school_route : String
  base_url : String
  client_id : String
  client_secret : String
  scopes : List String
  access_token : Option PyVal

/-- `VeracrossClient.__init__`, from the token-endpoint response body
(a parsed JSON object): stores the attributes, then runs the
`try/except KeyError` token assignment. `Except.error` is an exception
escaping construction. -/
def VeracrossClient.make (school_route client_id client_secret : String)
    (scopes : List String) (tokenResponse : Dict PyVal) :
    Except String (VeracrossClient × List String) :=
  match acquireToken tokenResponse with
  | .error e => .error e
  | .ok (tok, logs) =>
    .ok (⟨school_route,
          "https://api.veracross.com/" ++ school_route ++ "/v3",
          client_id, client_secret, scopes, tok⟩, logs)

/-- C3 (amended): when the token-endpoint response has no `access_token`
field but does carry `error_description`, construction prints the
server-provided description, leaves the client's token attribute unset,
and raises nothing. -/
theorem make_no_access_token_reports (school_route client_id client_secret : String)
    (scopes : List String) (resp : Dict PyVal) (desc : PyVal)
    (hnotok : pyGet resp "access_token" = none)
    (hdesc : pyGet resp "error_description" = some desc) :
    VeracrossClient.make school_route client_id client_secret scopes resp =
      .ok (⟨school_route,
            "https://api.veracross.com/" ++ school_route ++ "/v3",
            client_id, client_secret, scopes, none⟩,
           ["Error: " ++ pyStr desc]) := by
  unfold VeracrossClient.make acquireToken
  rw [hnotok, hdesc]

/-- C3 counterexample: the claim's "for every such response" fails — a
response with neither `access_token` nor `error_description` (e.g. the
OAuth-standard `{"error": "invalid_client"}`) makes the `except KeyError`
arm itself raise `KeyError` out of `__init__`. -/
theorem make_no_description_raises :
    VeracrossClient.make "school" "id" "secret" []
        [("error", PyVal.str "invalid_client")] =
      .error "KeyError: error_description" := rfl

/-! ### Resource accessors

Each accessor is embedded as a function of the client state, the HTTP
transport, and pagination fuel, returning
`Option (Except String AccessorOut)`:
* `none`: the paginated fetch loop never returns (no fuel suffices);
* `some (.error e)`: an exception escapes the accessor to the caller
  (only possible outside the `try` block, i.e. the `AttributeError` from
  reading the never-assigned `self.access_token` while building headers);
* `some (.ok out)`: the accessor returns normally; `out.ret` is the
  returned value (`some rows` a DataFrame, `none` Python `None`),
  `out.calls` the HTTP requests issued, `out.logs` the printed lines.

Integer-valued id arguments are embedded as `Int` (they are only
formatted into endpoint strings); the page-number/page-size arguments as
`Nat` (the library's pagination is positive; `str`/`int` round-trip is
`Nat.repr`/`String.toNat?`). Optional string arguments such as
`x_api_revision` are embedded as the `PyVal` the caller passed
(`PyVal.null` for `None`). -/

abbrev DataFrame := List Rec

structure AccessorOut where
  ret : Option DataFrame
  calls : List HttpCall
  logs : List String

/-- The shared accessor tail
```python
try:
    data = self.fetch_data_from_api(endpoint, headers, params)
    df = pd.DataFrame(data)
    return df
except Exception as e:
    print(f"Error: {str(e)}")
    return pd.DataFrame()
```
-/
def fetchToDf (token : String) (tr : Transport) (fuel : Nat) (endpoint : String)
    (headers : Headers) (params : Params) : Option (Except String AccessorOut) :=
  match fetch_data_from_api token tr fuel endpoint headers params with
  | none => none
  | some fr =>
    let calls := fr.sent.map (fun h => HttpCall.get endpoint h params)
    match fr.ret with
    | .ok data => some (.ok ⟨some data, calls, fr.logs⟩)
    | .error e => some (.ok ⟨some [], calls, fr.logs ++ ["Error: " ++ e]⟩)

/-- The scope-check failure message printed by every accessor. -/
def scopeMsg (scope : String) : String :=
  "Error: You don't have the required scope for this endpoint. Please add '"
    ++ scope ++ "' to your scopes."

/-- `get_assignment_grades` (second, reachable definition, source line
156): read one assignment grade. -/
def get_assignment_grades (c : VeracrossClient) (tr : Transport) (fuel : Nat)
    (assignment_id id : Int) (x_api_revision x_api_value_lists : PyVal)
    (x_page_number x_page_size : Nat) : Option (Except String AccessorOut) :=
  if "academics.assignments.grades:read" ∉ c.scopes then
    some (.ok ⟨some [], [], [scopeMsg "academics.assignments.grades:read"]⟩)
  else
    match c.access_token with
    | none => some (.error "AttributeError: access_token")
    | some tok =>
      fetchToDf (pyStr tok) tr fuel
        ("academics/assignments/" ++ toString assignment_id ++ "/grades/" ++ toString id)
        [("Authorization", PyVal.str ("Bearer " ++ pyStr tok)),
         ("X-API-Revision", x_api_revision),
         ("X-API-Value-Lists", x_api_value_lists),
         ("X-Page-Number", PyVal.str (Nat.repr x_page_number)),
         ("X-Page-Size", PyVal.str (Nat.repr x_page_size))]
        []

/-- `get_academics_classes` (first definition, source line 802): list
academic classes. Shadowed by the second definition. -/
def get_academics_classes_firstDef (c : VeracrossClient) (tr : Transport) (fuel : Nat)
    (course_type on_or_after_last_modified_date on_or_before_last_modified_date
      primary_teacher_id room_id school_year x_api_revision x_api_value_lists : PyVal)
    (x_page_number x_page_size : Nat) : Option (Except String AccessorOut) :=
  if "academics.classes:list" ∉ c.scopes then
    some (.ok ⟨some [], [], [scopeMsg "academics.classes:list"]⟩)
  else
    match c.access_token with
    | none => some (.error "AttributeError: access_token")
    | some tok =>
      fetchToDf (pyStr tok) tr fuel "academics/classes"
        [("Authorization", PyVal.str ("Bearer " ++ pyStr tok)),
         ("X-API-Revision", x_api_revision),
         ("X-API-Value-Lists", x_api_value_lists),
         ("X-Page-Number", PyVal.str (Nat.repr x_page_number)),
         ("X-Page-Size", PyVal.str (Nat.repr x_page_size))]
        [("course_type", course_type),
         ("on_or_after_last_modified_date", on_or_after_last_modified_date),
         ("on_or_before_last_modified_date", on_or_before_last_modified_date),
         ("primary_teacher_id", primary_teacher_id),
         ("room_id", room_id),
         ("school_year", school_year)]

/-- `get_academics_classes` (second, reachable definition, source line
909): read one academic class; fixed page header strings `'1'`/`'1000'`. -/
def get_academics_classes (c : VeracrossClient) (tr : Transport) (fuel : Nat)
    (id : Int) (x_api_revision x_api_value_lists : PyVal) :
    Option (Except String AccessorOut) :=
  if "academics.classes:list" ∉ c.scopes then
    some (.ok ⟨some [], [], [scopeMsg "academics.classes:list"]⟩)
  else
    match c.access_token with
    | none => some (.error "AttributeError: access_token")
    | some tok =>
      fetchToDf (pyStr tok) tr fuel ("academics/classes/" ++ toString id)
        [("Authorization", PyVal.str ("Bearer " ++ pyStr tok)),
         ("X-API-Revision", x_api_revision),
         ("X-API-Value-Lists", x_api_value_lists),
         ("X-Page-Number", PyVal.str "1"),
         ("X-Page-Size", PyVal.str "1000")]
        []

/-- `get_behavior` (first definition, source line 5140): list behavior
records via `behavior/list`. Shadowed by the second definition. -/
def get_behavior_firstDef (c : VeracrossClient) (tr : Transport) (fuel : Nat)
    (grading_period incident_type internal_class_id on_or_after_last_modified_date
      on_or_before_last_modified_date outcome_type school_year status
      x_api_revision x_api_value_lists : PyVal)
    (x_page_number x_page_size : Nat) : Option (Except String AccessorOut) :=
  if "behavior:list" ∉ c.scopes then
    some (.ok ⟨some [], [], [scopeMsg "behavior:list"]⟩)
  else
    match c.access_token with
    | none => some (.error "AttributeError: access_token")
    | some tok =>
      fetchToDf (pyStr tok) tr fuel "behavior/list"
        [("Authorization", PyVal.str ("Bearer " ++ pyStr tok)),
         ("X-API-Revision", x_api_revision),
         ("X-API-Value-Lists", x_api_value_lists),
         ("X-Page-Number", PyVal.str (Nat.repr x_page_number)),
         ("X-Page-Size", PyVal.str (Nat.repr x_page_size))]
        [("grading_period", grading_period),
         ("incident_type", incident_type),
         ("internal_class_id", internal_class_id),
         ("on_or_after_last_modified_date", on_or_after_last_modified_date),
         ("on_or_before_last_modified_date", on_or_before_last_modified_date),
         ("outcome_type", outcome_type),
         ("school_year", school_year),
         ("status", status)]

/-- `get_behavior` (second, reachable definition, source line 5191): read
behavior data; the endpoint is `behavior/<id>` when `id` is truthy
(Python `if id`: `None` and `0` are both falsy) and `behavior` otherwise. -/
def get_behavior (c : VeracrossClient) (tr : Transport) (fuel : Nat)
    (id : Option Int)
    (incident_date incident_type student_id reporting_person_id
      assigned_to_person_id internal_class_id class_name incident_notes
      behavior_points status status_date outcome_type outcome_date outcome_notes
      follow_up_status follow_up_status_date last_modified_date value_lists
      x_api_revision x_api_value_lists : PyVal)
    (x_page_number x_page_size : Nat) : Option (Except String AccessorOut) :=
  if "behavior:read" ∉ c.scopes then
    some (.ok ⟨some [], [], [scopeMsg "behavior:read"]⟩)
  else
    match c.access_token with
    | none => some (.error "AttributeError: access_token")
    | some tok =>
      fetchToDf (pyStr tok) tr fuel
        (match id with
         | some i => if i = 0 then "behavior" else "behavior/" ++ toString i
         | none => "behavior")
        [("Authorization", PyVal.str ("Bearer " ++ pyStr tok)),
         ("X-API-Revision", x_api_revision),
         ("X-API-Value-Lists", x_api_value_lists),
         ("X-Page-Number", PyVal.str (Nat.repr x_page_number)),
         ("X-Page-Size", PyVal.str (Nat.repr x_page_size))]
        [("incident_date", incident_date),
         ("incident_type", incident_type),
         ("student_id", student_id),
         ("reporting_person_id", reporting_person_id),
         ("assigned_to_person_id", assigned_to_person_id),
         ("internal_class_id", internal_class_id),
         ("class_name", class_name),
         ("incident_notes", incident_notes),
         ("behavior_points", behavior_points),
         ("status", status),
         ("status_date", status_date),
         ("outcome_type", outcome_type),
         ("outcome_date", outcome_date),
         ("outcome_notes", outcome_notes),
         ("follow_up_status", follow_up_status),
         ("follow_up_status_date", follow_up_status_date),
         ("last_modified_date", last_modified_date),
         ("value_lists", value_lists)]

/-- `update_assignment_grades` (source line 193). On a missing scope it
returns bare `None`. Otherwise its `try` block calls
`self.fetch_data_from_api(endpoint, headers, params, body_data)` — four
arguments against a three-parameter method — so Python raises `TypeError`
before any HTTP request; the catch-all prints it and the method falls off
the end, returning `None`. -/
def update_assignment_grades (c : VeracrossClient) (tr : Transport) (fuel : Nat)
    (assignment_id id : Int)
    (data completion_status raw_score private_notes_for_teacher
      last_modified_date x_api_revision : PyVal) :
    Option (Except String AccessorOut) :=
  if "update_assignment_grades" ∉ c.scopes then
    some (.ok ⟨none, [], [scopeMsg "update_assignment_grades"]⟩)
  else
    match c.access_token with
    | none => some (.error "AttributeError: access_token")
    | some _ =>
      some (.ok ⟨none, [],
        ["Error: fetch_data_from_api() takes 4 positional arguments but 5 were given"]⟩)

/-- `delete_academics_class_assignment` (source line 583): the only kind
of accessor that issues a direct verb call (`requests.delete`). -/
def delete_academics_class_assignment (c : VeracrossClient) (tr : Transport) (fuel : Nat)
    (id internal_class_id : Int) (x_api_revision : PyVal) :
    Option (Except String AccessorOut) :=
  if "academics.classes.assignments:delete" ∉ c.scopes then
    some (.ok ⟨some [], [], [scopeMsg "academics.classes.assignments:delete"]⟩)
  else
    match c.access_token with
    | none => some (.error "AttributeError: access_token")
    | some tok =>
      let endpoint := "academics/classes/" ++ toString internal_class_id
        ++ "/assignments/" ++ toString id
      let headers : Headers :=
        [("Authorization", PyVal.str ("Bearer " ++ pyStr tok)),
         ("X-API-Revision", x_api_revision)]
      match tr (HttpCall.delete endpoint headers) with
      | .error e =>
        some (.ok ⟨some [], [HttpCall.delete endpoint headers], ["Error: " ++ e]⟩)
      | .ok response =>
        if response.status = 200 then
          some (.ok ⟨some [], [HttpCall.delete endpoint headers],
            ["The class assignment with ID " ++ toString id ++ " was successfully deleted."]⟩)
        else
          some (.ok ⟨some [], [HttpCall.delete endpoint headers],
            ["Error: " ++ Nat.repr response.status ++ " - " ++ response.text]⟩)

/-- `create_academics_classes` (source line 849): a *create* accessor
whose `try` block nevertheless calls
`self.fetch_data_from_api(endpoint, headers, data)` — the GET-based
paginated fetcher with the would-be body as the query-params argument —
instead of `requests.post`. -/
def create_academics_classes (c : VeracrossClient) (tr : Transport) (fuel : Nat)
    (class_id description status school_year begin_date end_date
      primary_grade_level_id school_level internal_course_id primary_teacher_id
      room_id virtual_meeting_url subject_id x_api_revision : PyVal) :
    Option (Except String AccessorOut) :=
  if "academics.classes:create" ∉ c.scopes then
    some (.ok ⟨some [], [], [scopeMsg "academics.classes:create"]⟩)
  else
    match c.access_token with
    | none => some (.error "AttributeError: access_token")
    | some tok =>
      fetchToDf (pyStr tok) tr fuel "academics/classes"
        [("Authorization", PyVal.str ("Bearer " ++ pyStr tok)),
         ("X-API-Revision", x_api_revision)]
        [("class_id", class_id),
         ("description", description),
         ("status", status),
         ("school_year", school_year),
         ("begin_date", begin_date),
         ("end_date", end_date),
         ("primary_grade_level_id", primary_grade_level_id),
         ("school_level", school_level),
         ("internal_course_id", internal_course_id),
         ("primary_teacher_id", primary_teacher_id),
         ("room_id", room_id),
         ("virtual_meeting_url", virtual_meeting_url),
         ("subject_id", subject_id)]

def HttpCall.endpoint : HttpCall → String
  | .get e _ _ => e
  | .post e _ _ => e
  | .patch e _ _ => e
  | .delete e _ => e

/-- The shared accessor tail never lets an exception escape: it either
diverges with the fetch loop or returns normally. -/
theorem fetchToDf_no_raise (token : String) (tr : Transport) (fuel : Nat)
    (endpoint : String) (headers : Headers) (params : Params) :
    fetchToDf token tr fuel endpoint headers params = none ∨
    ∃ out, fetchToDf token tr fuel endpoint headers params = some (.ok out) := by
  unfold fetchToDf
  cases fetch_data_from_api token tr fuel endpoint headers params with
  | none => exact Or.inl rfl
  | some fr =>
    dsimp only
    cases fr.ret with
    | ok data => exact Or.inr ⟨_, rfl⟩
    | error e => exact Or.inr ⟨_, rfl⟩

/-- Every HTTP request the shared accessor tail issues is a GET of the
paginated fetcher. -/
theorem fetchToDf_calls_get (token : String) (tr : Transport) (fuel : Nat)
    (endpoint : String) (headers : Headers) (params : Params) (out : AccessorOut)
    (h : fetchToDf token tr fuel endpoint headers params = some (.ok out)) :
    out.calls.all HttpCall.isGet = true := by
  unfold fetchToDf at h
  cases hfr : fetch_data_from_api token tr fuel endpoint headers params with
  | none => simp only [hfr] at h; cases h
  | some fr =>
    simp only [hfr] at h
    cases hret : fr.ret with
    | ok data =>
      simp only [hret] at h
      cases h
      simp [List.all_eq_true, HttpCall.isGet]
    | error e =>
      simp only [hret] at h
      cases h
      simp [List.all_eq_true, HttpCall.isGet]

/-- C4 (amended): calling any of the modeled accessors with a scope list
that omits its required scope string prints the scope message and issues
zero HTTP requests; every accessor returns an empty DataFrame — except
`update_assignment_grades`, whose scope branch is a bare `return`, so the
caller receives `None` rather than an empty tabular value. -/
theorem scope_missing_no_calls :
    (∀ c tr fuel a i rev vls pn ps, "academics.assignments.grades:read" ∉ c.scopes →
      get_assignment_grades c tr fuel a i rev vls pn ps =
        some (.ok ⟨some [], [], [scopeMsg "academics.assignments.grades:read"]⟩)) ∧
    (∀ c tr fuel v1 v2 v3 v4 v5 v6 v7 v8 pn ps, "academics.classes:list" ∉ c.scopes →
      get_academics_classes_firstDef c tr fuel v1 v2 v3 v4 v5 v6 v7 v8 pn ps =
        some (.ok ⟨some [], [], [scopeMsg "academics.classes:list"]⟩)) ∧
    (∀ c tr fuel i rev vls, "academics.classes:list" ∉ c.scopes →
      get_academics_classes c tr fuel i rev vls =
        some (.ok ⟨some [], [], [scopeMsg "academics.classes:list"]⟩)) ∧
    (∀ c tr fuel v1 v2 v3 v4 v5 v6 v7 v8 v9 v10 pn ps, "behavior:list" ∉ c.scopes →
      get_behavior_firstDef c tr fuel v1 v2 v3 v4 v5 v6 v7 v8 v9 v10 pn ps =
        some (.ok ⟨some [], [], [scopeMsg "behavior:list"]⟩)) ∧
    (∀ c tr fuel i v1 v2 v3 v4 v5 v6 v7 v8 v9 v10 v11 v12 v13 v14 v15 v16 v17 v18 v19 v20 pn ps,
      "behavior:read" ∉ c.scopes →
      get_behavior c tr fuel i v1 v2 v3 v4 v5 v6 v7 v8 v9 v10 v11 v12 v13 v14 v15 v16 v17 v18 v19 v20 pn ps =
        some (.ok ⟨some [], [], [scopeMsg "behavior:read"]⟩)) ∧
    (∀ c tr fuel a i v1 v2 v3 v4 v5 v6, "update_assignment_grades" ∉ c.scopes →
      update_assignment_grades c tr fuel a i v1 v2 v3 v4 v5 v6 =
        some (.ok ⟨none, [], [scopeMsg "update_assignment_grades"]⟩)) ∧
    (∀ c tr fuel i icid rev, "academics.classes.assignments:delete" ∉ c.scopes →
      delete_academics_class_assignment c tr fuel i icid rev =
        some (.ok ⟨some [], [], [scopeMsg "academics.classes.assignments:delete"]⟩)) ∧
    (∀ c tr fuel v1 v2 v3 v4 v5 v6 v7 v8 v9 v10 v11 v12 v13 v14,
      "academics.classes:create" ∉ c.scopes →
      create_academics_classes c tr fuel v1 v2 v3 v4 v5 v6 v7 v8 v9 v10 v11 v12 v13 v14 =
        some (.ok ⟨some [], [], [scopeMsg "academics.classes:create"]⟩)) := by
  refine ⟨?_, ?_, ?_, ?_, ?_, ?_, ?_, ?_⟩ <;>
    · intro c tr fuel
      intros
      rename_i h
      first
      | exact if_pos h
      | (intro h2; exact absurd h2 h)

/-- C4 counterexample: `update_assignment_grades` with the scope missing
returns Python `None` (modeled `Option.none`), not an empty Tabular
Result, refuting "returns an empty Tabular Result" for every accessor. -/
theorem update_assignment_grades_scope_missing_returns_none :
    update_assignment_grades
        ⟨"s", "https://api.veracross.com/s/v3", "cid", "sec", [], some (PyVal.str "tok")⟩
        (fun _ => .error "unreachable") 1 7 9
        PyVal.null PyVal.null PyVal.null PyVal.null PyVal.null PyVal.null =
      some (.ok ⟨none, [], [scopeMsg "update_assignment_grades"]⟩) ∧
    (none : Option DataFrame) ≠ some [] := by
  exact ⟨rfl, by simp⟩

/-- C8 (amended): when the client's token attribute is set, no modeled
accessor lets an exception reach the caller, whatever the HTTP transport
does (including raising): each call either diverges in the pagination
loop or returns normally. (The returned value is an empty DataFrame on
failure for all modeled accessors except `update_assignment_grades`,
which returns `None` — see the counterexample.) -/
theorem accessors_never_raise :
    (∀ c tr fuel a i rev vls pn ps tok, c.access_token = some tok →
      get_assignment_grades c tr fuel a i rev vls pn ps = none ∨
      ∃ out, get_assignment_grades c tr fuel a i rev vls pn ps = some (.ok out)) ∧
    (∀ c tr fuel v1 v2 v3 v4 v5 v6 v7 v8 pn ps tok, c.access_token = some tok →
      get_academics_classes_firstDef c tr fuel v1 v2 v3 v4 v5 v6 v7 v8 pn ps = none ∨
      ∃ out, get_academics_classes_firstDef c tr fuel v1 v2 v3 v4 v5 v6 v7 v8 pn ps = some (.ok out)) ∧
    (∀ c tr fuel i rev vls tok, c.access_token = some tok →
      get_academics_classes c tr fuel i rev vls = none ∨
      ∃ out, get_academics_classes c tr fuel i rev vls = some (.ok out)) ∧
    (∀ c tr fuel v1 v2 v3 v4 v5 v6 v7 v8 v9 v10 pn ps tok, c.access_token = some tok →
      get_behavior_firstDef c tr fuel v1 v2 v3 v4 v5 v6 v7 v8 v9 v10 pn ps = none ∨
      ∃ out, get_behavior_firstDef c tr fuel v1 v2 v3 v4 v5 v6 v7 v8 v9 v10 pn ps = some (.ok out)) ∧
    (∀ c tr fuel i v1 v2 v3 v4 v5 v6 v7 v8 v9 v10 v11 v12 v13 v14 v15 v16 v17 v18 v19 v20 pn ps tok,
      c.access_token = some tok →
      get_behavior c tr fuel i v1 v2 v3 v4 v5 v6 v7 v8 v9 v10 v11 v12 v13 v14 v15 v16 v17 v18 v19 v20 pn ps = none ∨
      ∃ out, get_behavior c tr fuel i v1 v2 v3 v4 v5 v6 v7 v8 v9 v10 v11 v12 v13 v14 v15 v16 v17 v18 v19 v20 pn ps = some (.ok out)) ∧
    (∀ c tr fuel a i v1 v2 v3 v4 v5 v6 tok, c.access_token = some tok →
      update_assignment_grades c tr fuel a i v1 v2 v3 v4 v5 v6 = none ∨
      ∃ out, update_assignment_grades c tr fuel a i v1 v2 v3 v4 v5 v6 = some (.ok out)) ∧
    (∀ c tr fuel i icid rev tok, c.access_token = some tok →
      delete_academics_class_assignment c tr fuel i icid rev = none ∨
      ∃ out, delete_academics_class_assignment c tr fuel i icid rev = some (.ok out)) ∧
    (∀ c tr fuel v1 v2 v3 v4 v5 v6 v7 v8 v9 v10 v11 v12 v13 v14 tok, c.access_token = some tok →
      create_academics_classes c tr fuel v1 v2 v3 v4 v5 v6 v7 v8 v9 v10 v11 v12 v13 v14 = none ∨
      ∃ out, create_academics_classes c tr fuel v1 v2 v3 v4 v5 v6 v7 v8 v9 v10 v11 v12 v13 v14 = some (.ok out)) := by
  refine ⟨?_, ?_, ?_, ?_, ?_, ?_, ?_, ?_⟩ <;>
    · intro c tr fuel
      intros
      rename_i tok htok
      first
      | (unfold get_assignment_grades
         split
         · exact Or.inr ⟨_, rfl⟩
         · rw [htok]; exact fetchToDf_no_raise _ _ _ _ _ _)
      | (unfold get_academics_classes_firstDef
         split
         · exact Or.inr ⟨_, rfl⟩
         · rw [htok]; exact fetchToDf_no_raise _ _ _ _ _ _)
      | (unfold get_academics_classes
         split
         · exact Or.inr ⟨_, rfl⟩
         · rw [htok]; exact fetchToDf_no_raise _ _ _ _ _ _)
      | (unfold get_behavior_firstDef
         split
         · exact Or.inr ⟨_, rfl⟩
         · rw [htok]; exact fetchToDf_no_raise _ _ _ _ _ _)
      | (unfold get_behavior
         split
         · exact Or.inr ⟨_, rfl⟩
         · rw [htok]; exact fetchToDf_no_raise _ _ _ _ _ _)
      | (unfold update_assignment_grades
         split
         · exact Or.inr ⟨_, rfl⟩
         · rw [htok]; exact Or.inr ⟨_, rfl⟩)
      | (unfold create_academics_classes
         split
         · exact Or.inr ⟨_, rfl⟩
         · rw [htok]; exact fetchToDf_no_raise _ _ _ _ _ _)
      | (unfold delete_academics_class_assignment
         split
         · exact Or.inr ⟨_, rfl⟩
         · rw [htok]
           dsimp only
           cases tr (HttpCall.delete _ _) with
           | error e => exact Or.inr ⟨_, rfl⟩
           | ok response =>
             dsimp only
             by_cases h200 : response.status = 200
             · rw [if_pos h200]; exact Or.inr ⟨_, rfl⟩
             · rw [if_neg h200]; exact Or.inr ⟨_, rfl⟩)

/-- C8 counterexample: with its scope present and any transport,
`update_assignment_grades` swallows the `TypeError` from its mis-arity
fetcher call and returns Python `None` — not an empty tabular result as
the claim states for every accessor. -/
theorem update_assignment_grades_failure_returns_none :
    update_assignment_grades
        ⟨"s", "https://api.veracross.com/s/v3", "cid", "sec",
         ["update_assignment_grades"], some (PyVal.str "tok")⟩
        (fun _ => .error "ConnectionError") 1 7 9
        PyVal.null PyVal.null PyVal.null PyVal.null PyVal.null PyVal.null =
      some (.ok ⟨none, [],
        ["Error: fetch_data_from_api() takes 4 positional arguments but 5 were given"]⟩) ∧
    (none : Option DataFrame) ≠ some [] := by
  exact ⟨rfl, by simp⟩

/-- C5 (amended): the modeled list/read accessors obtain their result
through the paginated fetcher — every HTTP request they issue is one of
its GETs — and `delete_academics_class_assignment` issues exactly one
direct DELETE; but the create/update accessors do not follow the claimed
direct-verb pattern: `create_academics_classes` also delegates to the
GET-based paginated fetcher, and `update_assignment_grades` issues no
request at all (its four-argument fetcher call raises `TypeError`, which
its handler swallows). -/
theorem accessor_verb_usage :
    (∀ c tr fuel a i rev vls pn ps out,
      get_assignment_grades c tr fuel a i rev vls pn ps = some (.ok out) →
      out.calls.all HttpCall.isGet = true) ∧
    (∀ c tr fuel i rev vls out,
      get_academics_classes c tr fuel i rev vls = some (.ok out) →
      out.calls.all HttpCall.isGet = true) ∧
    (∀ c tr fuel i v1 v2 v3 v4 v5 v6 v7 v8 v9 v10 v11 v12 v13 v14 v15 v16 v17 v18 v19 v20 pn ps out,
      get_behavior c tr fuel i v1 v2 v3 v4 v5 v6 v7 v8 v9 v10 v11 v12 v13 v14 v15 v16 v17 v18 v19 v20 pn ps = some (.ok out) →
      out.calls.all HttpCall.isGet = true) ∧
    (∀ c tr fuel i icid rev tok, c.access_token = some tok →
      "academics.classes.assignments:delete" ∈ c.scopes →
      ∃ out, delete_academics_class_assignment c tr fuel i icid rev = some (.ok out) ∧
        out.calls = [HttpCall.delete
          ("academics/classes/" ++ toString icid ++ "/assignments/" ++ toString i)
          [("Authorization", PyVal.str ("Bearer " ++ pyStr tok)),
           ("X-API-Revision", rev)]]) ∧
    (∀ c tr fuel v1 v2 v3 v4 v5 v6 v7 v8 v9 v10 v11 v12 v13 v14 out,
      create_academics_classes c tr fuel v1 v2 v3 v4 v5 v6 v7 v8 v9 v10 v11 v12 v13 v14 = some (.ok out) →
      out.calls.all HttpCall.isGet = true) ∧
    (∀ c tr fuel a i v1 v2 v3 v4 v5 v6 out,
      update_assignment_grades c tr fuel a i v1 v2 v3 v4 v5 v6 = some (.ok out) →
      out.calls = []) := by
  refine ⟨?_, ?_, ?_, ?_, ?_, ?_⟩
  · intro c tr fuel a i rev vls pn ps out h
    unfold get_assignment_grades at h
    split at h
    · cases h; rfl
    · cases htok : c.access_token with
      | none => rw [htok] at h; cases h
      | some tok => rw [htok] at h; exact fetchToDf_calls_get _ _ _ _ _ _ _ h
  · intro c tr fuel i rev vls out h
    unfold get_academics_classes at h
    split at h
    · cases h; rfl
    · cases htok : c.access_token with
      | none => rw [htok] at h; cases h
      | some tok => rw [htok] at h; exact fetchToDf_calls_get _ _ _ _ _ _ _ h
  · intro c tr fuel i v1 v2 v3 v4 v5 v6 v7 v8 v9 v10 v11 v12 v13 v14 v15 v16 v17 v18 v19 v20 pn ps out h
    unfold get_behavior at h
    split at h
    · cases h; rfl
    · cases htok : c.access_token with
      | none => rw [htok] at h; cases h
      | some tok => rw [htok] at h; exact fetchToDf_calls_get _ _ _ _ _ _ _ h
  · intro c tr fuel i icid rev tok htok hscope
    unfold delete_academics_class_assignment
    rw [if_neg (not_not_intro hscope), htok]
    dsimp only
    cases tr (HttpCall.delete _ _) with
    | error e => exact ⟨_, rfl, rfl⟩
    | ok response =>
      dsimp only
      by_cases h200 : response.status = 200
      · rw [if_pos h200]; exact ⟨_, rfl, rfl⟩
      · rw [if_neg h200]; exact ⟨_, rfl, rfl⟩
  · intro c tr fuel v1 v2 v3 v4 v5 v6 v7 v8 v9 v10 v11 v12 v13 v14 out h
    unfold create_academics_classes at h
    split at h
    · cases h; rfl
    · cases htok : c.access_token with
      | none => rw [htok] at h; cases h
      | some tok => rw [htok] at h; exact fetchToDf_calls_get _ _ _ _ _ _ _ h
  · intro c tr fuel a i v1 v2 v3 v4 v5 v6 out h
    unfold update_assignment_grades at h
    split at h
    · cases h; rfl
    · cases htok : c.access_token with
      | none => rw [htok] at h; cases h
      | some tok => rw [htok] at h; cases h; rfl

/-- C5 counterexample: `create_academics_classes` — a create accessor —
run with its scope present against a server that answers an empty success
page issues exactly one HTTP request, and that request is a GET of the
paginated fetcher to `academics/classes`; no POST/PATCH/DELETE is ever
issued. -/
theorem create_academics_classes_delegates_to_fetcher :
    (create_academics_classes
        ⟨"s", "https://api.veracross.com/s/v3", "cid", "sec",
         ["academics.classes:create"], some (PyVal.str "tok")⟩
        (fun _ => .ok ⟨200, [], ""⟩) 1
        PyVal.null PyVal.null PyVal.null PyVal.null PyVal.null PyVal.null
        PyVal.null PyVal.null PyVal.null PyVal.null PyVal.null PyVal.null
        PyVal.null PyVal.null).map
      (Except.map (fun out =>
        (out.calls.map HttpCall.endpoint, out.calls.all HttpCall.isGet))) =
      some (.ok (["academics/classes"], true)) := rfl

/-! ### Python class-body semantics: last definition wins (C9)

Evaluating a Python class body binds each `def`'s name in the class dict
in source order; a later `def` with the same name overwrites the earlier
binding, which becomes unreachable through the class interface. The class
dict is the fold of `pySet` over the (name, definition) pairs; a
definition is identified by its position in the source. -/

/-- The 258 method names of class `VeracrossClient`, in source
order (the full `def` list of the class body). -/
def classMethodNames : List String :=
  ["__init__", "fetch_data_from_api", "expand_dict_columns", "get_assignment_grades",
   "get_assignment_grades", "update_assignment_grades", "get_academics_block_groups", "get_academics_block_groups",
   "get_academics_config_blocks_by_group", "get_academics_blocks_by_group", "get_academics_calendar_rotation_days", "get_calendar_rotation_day",
   "create_class_assignments", "get_academics_class_assignments", "delete_academics_class_assignment", "get_academics_class_assignments",
   "update_academics_class_assignment", "get_academics_class_meeting_times", "get_academics_class_meeting_times", "get_academics_classes",
   "create_academics_classes", "get_academics_classes", "update_academics_classes", "get_academics_permissions",
   "get_academics_class_permissions", "get_academics_configuration_block_times", "get_academics_configuration_block_times", "get_academics_configuration_block_schedules",
   "get_block_schedule", "get_configuration_blocks_periods", "get_academics_config_blocks", "create_academics_course",
   "get_academics_courses", "get_academics_courses", "update_academics_courses", "get_academics_departments",
   "get_academic_department", "get_academics_enrollments", "get_enrollment", "update_academics_enrollment",
   "create_academics_enrollments", "get_academics_grading_periods", "get_academics_grading_periods", "get_academics_numeric_grades",
   "update_numeric_grade", "get_academics_numeric_grades", "get_academics_qualitative_grades", "get_qualitative_grades",
   "get_academics_rooms", "get_academics_rooms", "get_academics_rotation_days", "get_config_rotation_days",
   "create_academics_rubric_categories", "get_academics_rubric_categories", "get_rubric_category", "update_rubric_category",
   "update_data_from_api", "create_academics_rubric_criteria", "get_academics_rubric_criteria", "get_academics_rubric_criteria",
   "update_academics_rubric_criteria", "create_academics_rubric_scale", "get_academics_rubric_scales", "get_academics_rubric_scales",
   "update_academics_rubric_scales", "create_academics_rubric_scale_levels", "send_data_to_api", "get_rubric_scale_levels",
   "get_rubric_scale_levels", "update_academics_rubric_scale_levels", "create_academics_rubric", "get_academics_rubrics",
   "get_rubric", "update_academics_rubrics", "get_academics_subjects", "get_academics_subjects",
   "create_admission_applicant_relationship", "get_admission_applicant_relationships", "get_admission_applicant_relationships", "update_admission_applicant_relationships",
   "create_admission_applicants", "get_admission_applicants", "update_admission_applicant", "get_application_checklists",
   "admission_application_checklists_read", "update_admission_application_checklists", "create_admission_applications", "get_admission_applications",
   "update_admission_applications", "create_admission_citizenship", "get_admission_citizenships", "get_admission_citizenships",
   "update_admission_citizenships", "get_admission_configuration_checklists", "get_admission_configuration_checklists", "get_admission_configuration_years",
   "get_admission_config_years", "get_admission_household_members", "get_admission_households", "admission_households_read",
   "update_admission_households", "create_admission_languages", "get_admission_languages", "admission_languages_read",
   "update_admission_languages", "create_admission_relative_relationships", "get_admission_relative_relationships", "get_admission_relative_relationships",
   "update_admission_relative_relationships", "create_admission_relative", "get_admission_relatives", "create_athletics_rosters",
   "get_athletics_rosters", "update_athletics_rosters", "get_athletics_sports", "get_athletics_sports",
   "update_athletics_sports", "create_athletics_sports", "create_athletics_teams", "get_athletics_teams",
   "get_athletics_teams", "update_athletics_teams", "create_behavior", "get_behavior",
   "get_behavior", "update_behavior", "get_dorm_attendance", "update_boarding_dorm_attendance",
   "get_boarding_dorm_students", "get_boarding_dorm_students", "update_boarding_dorm_students", "get_boarding_dorms",
   "get_boarding_dorms", "get_class_attendance", "update_class_attendance", "get_classes",
   "get_class", "get_contact_info", "get_contact_info", "get_courses",
   "get_courses", "update_course", "get_directory_preferences_household", "get_directory_preferences_household",
   "update_directory_preferences_household", "get_directory_preferences_person", "update_directory_preferences_person", "get_directory_type_configurations",
   "create_emergency_contacts", "delete_emergency_contact", "update_emergency_contact", "get_event",
   "get_events_athletics", "get_events_athletics", "get_extended_care_class_attendance", "get_extended_care_class_attendance",
   "get_extended_care_class_meeting_times", "extended_care_class_meeting_times", "create_extended_care_classes", "get_extended_care_classes",
   "update_extended_care_classes", "get_extended_care_courses", "create_extended_care_courses", "get_extended_care_course",
   "update_extended_care_course", "get_extended_care_registrations", "get_extended_care_registration", "get_health_patient_conditions",
   "create_patient_condition", "get_health_patient_conditions", "update_health_patient_condition", "create_health_patient_medications",
   "get_patient_medications", "get_patient_medication", "update_patient_medication", "get_health_patients",
   "get_health_patients", "update_health_patients", "get_households", "get_households",
   "get_master_attendance", "get_master_attendance", "update_master_attendance", "get_parents",
   "get_parent", "get_programs_class_attendance", "get_programs_class_attendance", "update_programs_class_attendance",
   "get_programs_class_meeting_times", "get_programs_class_meeting_times", "create_program_class", "get_program_classes",
   "get_programs_class", "update_programs_classes", "get_programs_courses", "create_programs_courses",
   "get_programs_courses", "update_programs_course", "get_programs_enrollments", "get_programs_enrollments",
   "update_programs_enrollment", "create_program_enrollment", "get_relationships", "get_relationships",
   "get_person_relationships", "get_report_card_academic_classifications", "get_report_card_academic_classifications", "get_report_cards_class_curriculum",
   "get_report_cards_class_curriculum", "get_report_cards_class_teachers", "get_report_cards_class_teachers", "get_report_card_documents",
   "get_report_cards_documents", "get_report_card_enrollments", "get_report_card_enrollments", "get_report_card_students_gpas",
   "get_report_card_gpas", "get_report_cards_numeric_grades", "get_report_cards_numeric_grades", "get_report_card_qualitative_grades",
   "get_report_cards_qualitative_grades", "get_staff_faculty", "get_staff_faculty", "create_student_logistics_request",
   "get_student_logistics_requests", "delete_student_logistics_request", "get_student_logistics_request", "update_student_logistics_request",
   "get_students", "get_student", "get_summer_class_attendance_list", "get_summer_class_attendance",
   "update_summer_class_attendance", "get_summer_class_meeting_times", "get_summer_class_meeting_times", "create_summer_classes",
   "get_summer_classes", "get_summer_classes", "update_summer_classes", "get_summer_courses",
   "create_summer_course", "get_summer_courses", "get_summer_enrollments", "get_summer_enrollments",
   "update_summer_enrollment", "create_summer_enrollments", "update_qualitative_grade", "get_admission_applicant",
   "get_admission_relatives", "update_admission_relatives", "get_athletics_rosters", "get_class_attendance",
   "get_directory_preferences_person", "get_emergency_contacts", "get_emergency_contact", "get_events",
   "get_extended_care_classes", "update_summer_course"]

/-- The class body: each method name paired with the index (source
position) of its definition. -/
def veracrossClassBody : List (String × Nat) :=
  classMethodNames.enum.map (fun p => (p.2, p.1))

/-- Evaluating the class body: fold the bindings into the class dict. -/
def pyClassDict (body : List (String × α)) : Dict α :=
  body.foldl (fun d kv => pySet d kv.1 kv.2) []

/-- The value of the textually last binding of `name` in `body`. -/
def lastAssoc : List (String × α) → String → Option α
  | [], _ => none
  | (k, v) :: t, name =>
    match lastAssoc t name with
    | some w => some w
    | none => if k = name then some v else none

theorem pyGet_foldl_pySet :
    ∀ (body : List (String × α)) (d : Dict α) (name : String),
      pyGet (body.foldl (fun d kv => pySet d kv.1 kv.2) d) name =
        match lastAssoc body name with
        | some v => some v
        | none => pyGet d name := by
  intro body
  induction body with
  | nil => intro d name; rfl
  | cons kv t ih =>
    intro d name
    obtain ⟨k, v⟩ := kv
    simp only [List.foldl_cons, lastAssoc, ih]
    cases lastAssoc t name with
    | some w => rfl
    | none =>
      by_cases hk : k = name
      · simp [hk, pyGet_pySet_self]
      · simp [hk, pyGet_pySet_ne _ _ _ _ (fun hh => hk hh.symm)]

/-- Python attribute lookup on the class: the textually last `def` of a
name is the one bound. -/
theorem pyGet_pyClassDict (body : List (String × α)) (name : String) :
    pyGet (pyClassDict body) name = lastAssoc body name := by
  rw [pyClassDict, pyGet_foldl_pySet]
  cases lastAssoc body name <;> rfl

theorem lastAssoc_mem :
    ∀ (body : List (String × α)) (name : String) (v : α),
      lastAssoc body name = some v → (name, v) ∈ body := by
  intro body
  induction body with
  | nil => intro name v h; cases h
  | cons kv t ih =>
    intro name v h
    obtain ⟨k, w⟩ := kv
    simp only [lastAssoc] at h
    cases hl : lastAssoc t name with
    | some u =>
      rw [hl] at h
      cases h
      exact List.mem_cons_of_mem _ (ih name _ hl)
    | none =>
      rw [hl] at h
      by_cases hk : k = name
      · rw [if_pos hk] at h
        cases h
        subst hk
        exact List.mem_cons_self _ _
      · rw [if_neg hk] at h
        cases h

theorem mem_veracrossClassBody (name : String) (i : Nat)
    (h : (name, i) ∈ veracrossClassBody) :
    classMethodNames[i]? = some name := by
  unfold veracrossClassBody at h
  obtain ⟨p, hmem, heq⟩ := List.mem_map.mp h
  obtain ⟨j, x⟩ := p
  obtain ⟨hx, hj⟩ := Prod.mk.injEq .. |>.mp heq
  subst hx
  subst hj
  exact List.mk_mem_enum_iff_getElem?.mp hmem

/-- A client carrying all the scopes the duplicate-definition pairs
check, with a token set. -/
def c9Client : VeracrossClient :=
  ⟨"s", "https://api.veracross.com/s/v3", "cid", "sec",
   ["academics.classes:list", "behavior:list", "behavior:read"],
   some (PyVal.str "tok")⟩

set_option maxRecDepth 8192

/-- C9: Python's class-body evaluation binds the textually last `def` of
each name (`pyGet (pyClassDict body) = lastAssoc body`); in this class
`get_academics_classes` is defined at source positions 19 and 21 and
resolves to 21, `get_behavior` at 123 and 124 and resolves to 124, and no
name resolves to the shadowed first definitions (19 or 123) — they are
unreachable through the class interface. The shadowed pairs are
extensionally different functions: on the same concrete call the first
and second definitions send their one GET to different endpoints
(`academics/classes` vs `academics/classes/5`; `behavior/list` vs
`behavior`). -/
theorem duplicate_method_resolution :
    (∀ (body : List (String × Nat)) (name : String),
      pyGet (pyClassDict body) name = lastAssoc body name) ∧
    classMethodNames[19]? = some "get_academics_classes" ∧
    classMethodNames[21]? = some "get_academics_classes" ∧
    pyGet (pyClassDict veracrossClassBody) "get_academics_classes" = some 21 ∧
    classMethodNames[123]? = some "get_behavior" ∧
    classMethodNames[124]? = some "get_behavior" ∧
    pyGet (pyClassDict veracrossClassBody) "get_behavior" = some 124 ∧
    (∀ name, pyGet (pyClassDict veracrossClassBody) name ≠ some 19) ∧
    (∀ name, pyGet (pyClassDict veracrossClassBody) name ≠ some 123) ∧
    (get_academics_classes_firstDef c9Client (fun _ => .error "ConnectionError") 1
        PyVal.null PyVal.null PyVal.null PyVal.null PyVal.null PyVal.null
        PyVal.null PyVal.null 1 1000).map
      (Except.map (fun out => out.calls.map HttpCall.endpoint)) =
      some (.ok ["academics/classes"]) ∧
    (get_academics_classes c9Client (fun _ => .error "ConnectionError") 1
        5 PyVal.null PyVal.null).map
      (Except.map (fun out => out.calls.map HttpCall.endpoint)) =
      some (.ok ["academics/classes/5"]) ∧
    (get_behavior_firstDef c9Client (fun _ => .error "ConnectionError") 1
        PyVal.null PyVal.null PyVal.null PyVal.null PyVal.null PyVal.null
        PyVal.null PyVal.null PyVal.null PyVal.null 1 1000).map
      (Except.map (fun out => out.calls.map HttpCall.endpoint)) =
      some (.ok ["behavior/list"]) ∧
    (get_behavior c9Client (fun _ => .error "ConnectionError") 1
        none PyVal.null PyVal.null PyVal.null PyVal.null PyVal.null PyVal.null
        PyVal.null PyVal.null PyVal.null PyVal.null PyVal.null PyVal.null
        PyVal.null PyVal.null PyVal.null PyVal.null PyVal.null PyVal.null
        PyVal.null PyVal.null 1 1000).map
      (Except.map (fun out => out.calls.map HttpCall.endpoint)) =
      some (.ok ["behavior"]) ∧
    ("academics/classes" ≠ "academics/classes/5" ∧ "behavior/list" ≠ "behavior") := by
  have hlast21 : lastAssoc veracrossClassBody "get_academics_classes" = some 21 := by decide
  have hlast124 : lastAssoc veracrossClassBody "get_behavior" = some 124 := by decide
  refine ⟨pyGet_pyClassDict, rfl, rfl, ?_, rfl, rfl, ?_, ?_, ?_, rfl, rfl, rfl, rfl, ?_, ?_⟩
  · rw [pyGet_pyClassDict]; exact hlast21
  · rw [pyGet_pyClassDict]; exact hlast124
  · intro name h
    rw [pyGet_pyClassDict] at h
    have hget := mem_veracrossClassBody _ _ (lastAssoc_mem _ _ _ h)
    have h19 : classMethodNames[19]? = some "get_academics_classes" := rfl
    rw [h19] at hget
    injection hget with hname
    subst hname
    rw [hlast21] at h
    simp at h
  · intro name h
    rw [pyGet_pyClassDict] at h
    have hget := mem_veracrossClassBody _ _ (lastAssoc_mem _ _ _ h)
    have h123 : classMethodNames[123]? = some "get_behavior" := rfl
    rw [h123] at hget
    injection hget with hname
    subst hname
    rw [hlast124] at h
    simp at h
  · decide
  · decide

/-! ### Witnesses: each hypothesis-bearing claim theorem applied at a
concrete input. -/

theorem fetch_three_pages_spec_witness :
    ∃ r : FetchResult,
      fetch_data_from_api "t"
          (pageServer (threePages [[("id", PyVal.int 1)]] [[("id", PyVal.int 2)]]))
          3 "e" [("X-Page-Number", PyVal.str "1"), ("X-Page-Size", PyVal.str "10")] [] =
        some r ∧
      r.ret = .ok ([[("id", PyVal.int 1)]] ++ [[("id", PyVal.int 2)]]) ∧
      r.sent.length = 3 ∧
      r.sent.map (fun h => pyGet h "X-Page-Number") =
        [some (PyVal.str "1"), some (PyVal.str "2"), some (PyVal.str "3")] :=
  fetch_three_pages_spec [[("id", PyVal.int 1)]] [[("id", PyVal.int 2)]]
    (by simp) (by simp) "t" "e"
    [("X-Page-Number", PyVal.str "1"), ("X-Page-Size", PyVal.str "10")] [] 3
    rfl (by omega)

theorem fetch_nonsuccess_partial_result_witness :
    ∃ r : FetchResult,
      fetch_data_from_api "t" (pageServer (fun _ => ⟨500, [], "Server Error"⟩)) 1 "e"
          [("X-Page-Number", PyVal.str "1")] [] = some r ∧
      r.ret = .ok (pagesConcat (fun i => ((fun _ => (⟨500, [], "Server Error"⟩ : Resp)) (1 + i)).data) 0) ∧
      r.sent.length = 0 + 1 ∧
      r.logs = ["Error: " ++ Nat.repr (500 : Nat) ++ " - " ++ "Server Error"] :=
  fetch_nonsuccess_partial_result (fun _ => ⟨500, [], "Server Error"⟩) 0 1 "t" "e"
    [("X-Page-Number", PyVal.str "1")] [] 1 rfl
    (fun i hi => absurd hi (by omega)) (by simp) (by omega)

theorem make_no_access_token_reports_witness :
    VeracrossClient.make "school" "cid" "sec" ["s1"]
        [("error_description", PyVal.str "bad client")] =
      .ok (⟨"school", "https://api.veracross.com/school/v3",
            "cid", "sec", ["s1"], none⟩,
           ["Error: " ++ pyStr (PyVal.str "bad client")]) :=
  make_no_access_token_reports "school" "cid" "sec" ["s1"]
    [("error_description", PyVal.str "bad client")] (PyVal.str "bad client") rfl rfl

theorem expand_dict_columns_spec_witness :
    expand_dict_columns
        [[("a", PyVal.dict [("x", PyVal.int 1), ("y", PyVal.int 2)]),
          ("b", PyVal.int 5)]] ["a"] =
      .ok ([[("a", PyVal.dict [("x", PyVal.int 1), ("y", PyVal.int 2)]),
             ("b", PyVal.int 5)]].map
        (fun row => dropKeys ["a"] row ++ expandPairs ["a"] row)) ∧
    expand_dict_columns
        [[("a", PyVal.dict [("x", PyVal.int 1), ("y", PyVal.int 2)]),
          ("b", PyVal.int 5)]] ["a"] =
      .ok [[("b", PyVal.int 5), ("a_x", PyVal.int 1), ("a_y", PyVal.int 2)]] :=
  expand_dict_columns_spec
    [[("a", PyVal.dict [("x", PyVal.int 1), ("y", PyVal.int 2)]), ("b", PyVal.int 5)]]
    ["a"]
    (by
      intro row hrow c hc
      rw [List.mem_singleton] at hrow hc
      subst hrow
      subst hc
      exact ⟨PyVal.dict [("x", PyVal.int 1), ("y", PyVal.int 2)], rfl,
        Or.inr ⟨_, rfl⟩⟩)
    (by
      intro row hrow
      rw [List.mem_singleton] at hrow
      subst hrow
      decide)

theorem fetch_termination_characterization_witness :
    (fetchApiTerminates "t" (pageServer (fun _ => ⟨200, [], ""⟩)) "e"
        [("X-Page-Number", PyVal.str "1")] [] ↔
      ∃ m, 1 ≤ m ∧ (((fun _ => (⟨200, [], ""⟩ : Resp)) m).status ≠ 200 ∨
        ((fun _ => (⟨200, [], ""⟩ : Resp)) m).data = [])) ∧
    ((∀ m, 1 ≤ m → ((fun _ => (⟨200, [], ""⟩ : Resp)) m).status = 200 ∧
        ((fun _ => (⟨200, [], ""⟩ : Resp)) m).data ≠ []) →
      ∀ fuel, fetch_data_from_api "t" (pageServer (fun _ => ⟨200, [], ""⟩)) fuel "e"
        [("X-Page-Number", PyVal.str "1")] [] = none) ∧
    (∀ m, 1 ≤ m → (((fun _ => (⟨200, [], ""⟩ : Resp)) m).status ≠ 200 ∨
        ((fun _ => (⟨200, [], ""⟩ : Resp)) m).data = []) →
      ∃ r, fetch_data_from_api "t" (pageServer (fun _ => ⟨200, [], ""⟩)) (m - 1 + 1) "e"
        [("X-Page-Number", PyVal.str "1")] [] = some r) :=
  fetch_termination_characterization (fun _ => ⟨200, [], ""⟩) 1 "t" "e"
    [("X-Page-Number", PyVal.str "1")] [] rfl

theorem fetch_mutates_headers_witness :
    ∃ r : FetchResult,
      fetch_data_from_api "t" (pageServer (fun _ => ⟨200, [], ""⟩)) 1 "e"
          [("Authorization", PyVal.str "caller supplied"),
           ("X-Page-Number", PyVal.str "1"),
           ("X-Page-Size", PyVal.str "10")] [] = some r ∧
      pyGet r.headers "Authorization" = some (PyVal.str ("Bearer " ++ "t")) ∧
      (∀ hs ∈ r.sent, pyGet hs "Authorization" = some (PyVal.str ("Bearer " ++ "t"))) ∧
      pyGet r.headers "X-Page-Number" = some (PyVal.str (Nat.repr (1 + 0))) ∧
      pyGet r.headers "X-Page-Size" =
        pyGet [("Authorization", PyVal.str "caller supplied"),
               ("X-Page-Number", PyVal.str "1"),
               ("X-Page-Size", PyVal.str "10")] "X-Page-Size" ∧
      (∀ key, key ≠ "Authorization" → key ≠ "X-Page-Number" →
        pyGet r.headers key =
          pyGet [("Authorization", PyVal.str "caller supplied"),
                 ("X-Page-Number", PyVal.str "1"),
                 ("X-Page-Size", PyVal.str "10")] key) :=
  fetch_mutates_headers (fun _ => ⟨200, [], ""⟩) 0 1 "t" "e"
    [("Authorization", PyVal.str "caller supplied"),
     ("X-Page-Number", PyVal.str "1"),
     ("X-Page-Size", PyVal.str "10")] [] 1 rfl
    (fun i hi => absurd hi (by omega)) rfl rfl (by omega)

theorem scope_missing_no_calls_witness :
    get_assignment_grades
        ⟨"s", "https://api.veracross.com/s/v3", "cid", "sec", [], some (PyVal.str "t")⟩
        (fun _ => .error "unreachable") 1 7 9 PyVal.null PyVal.null 1 10 =
      some (.ok ⟨some [], [], [scopeMsg "academics.assignments.grades:read"]⟩) ∧
    delete_academics_class_assignment
        ⟨"s", "https://api.veracross.com/s/v3", "cid", "sec", [], some (PyVal.str "t")⟩
        (fun _ => .error "unreachable") 1 7 9 PyVal.null =
      some (.ok ⟨some [], [], [scopeMsg "academics.classes.assignments:delete"]⟩) ∧
    update_assignment_grades
        ⟨"s", "https://api.veracross.com/s/v3", "cid", "sec", [], some (PyVal.str "t")⟩
        (fun _ => .error "unreachable") 1 7 9
        PyVal.null PyVal.null PyVal.null PyVal.null PyVal.null PyVal.null =
      some (.ok ⟨none, [], [scopeMsg "update_assignment_grades"]⟩) :=
  ⟨scope_missing_no_calls.1 _ _ 1 7 9 PyVal.null PyVal.null 1 10 (by simp),
   scope_missing_no_calls.2.2.2.2.2.2.1 _ _ 1 7 9 PyVal.null (by simp),
   scope_missing_no_calls.2.2.2.2.2.1 _ _ 1 7 9
     PyVal.null PyVal.null PyVal.null PyVal.null PyVal.null PyVal.null (by simp)⟩

theorem accessor_verb_usage_witness :
    (⟨some [], [], [scopeMsg "academics.assignments.grades:read"]⟩ :
        AccessorOut).calls.all HttpCall.isGet = true ∧
    ∃ out, delete_academics_class_assignment
        ⟨"s", "https://api.veracross.com/s/v3", "cid", "sec",
         ["academics.classes.assignments:delete"], some (PyVal.str "t")⟩
        (fun _ => .ok ⟨200, [], ""⟩) 1 7 9 PyVal.null = some (.ok out) ∧
      out.calls = [HttpCall.delete
        ("academics/classes/" ++ toString (9 : Int) ++ "/assignments/" ++ toString (7 : Int))
        [("Authorization", PyVal.str ("Bearer " ++ pyStr (PyVal.str "t"))),
         ("X-API-Revision", PyVal.null)]] :=
  ⟨accessor_verb_usage.1
      ⟨"s", "https://api.veracross.com/s/v3", "cid", "sec", [], some (PyVal.str "t")⟩
      (fun _ => .error "unreachable") 1 7 9 PyVal.null PyVal.null 1 10 _ rfl,
   accessor_verb_usage.2.2.2.1
      ⟨"s", "https://api.veracross.com/s/v3", "cid", "sec",
       ["academics.classes.assignments:delete"], some (PyVal.str "t")⟩
      (fun _ => .ok ⟨200, [], ""⟩) 1 7 9 PyVal.null (PyVal.str "t") rfl (by simp)⟩

theorem accessors_never_raise_witness :
    get_assignment_grades
        ⟨"s", "https://api.veracross.com/s/v3", "cid", "sec",
         ["academics.assignments.grades:read"], some (PyVal.str "t")⟩
        (fun _ => .error "ConnectionError") 1 7 9 PyVal.null PyVal.null 1 10 = none ∨
    ∃ out, get_assignment_grades
        ⟨"s", "https://api.veracross.com/s/v3", "cid", "sec",
         ["academics.assignments.grades:read"], some (PyVal.str "t")⟩
        (fun _ => .error "ConnectionError") 1 7 9 PyVal.null PyVal.null 1 10 =
      some (.ok out) :=
  accessors_never_raise.1
    ⟨"s", "https://api.veracross.com/s/v3", "cid", "sec",
     ["academics.assignments.grades:read"], some (PyVal.str "t")⟩
    (fun _ => .error "ConnectionError") 1 7 9 PyVal.null PyVal.null 1 10
    (PyVal.str "t") rfl

theorem duplicate_method_resolution_witness :
    pyGet (pyClassDict veracrossClassBody) "get_academics_classes" = some 21 ∧
    pyGet (pyClassDict veracrossClassBody) "get_behavior" = some 124 ∧
    pyGet (pyClassDict veracrossClassBody) "fetch_data_from_api" ≠ some 19 :=
  ⟨duplicate_method_resolution.2.2.2.1,
   duplicate_method_resolution.2.2.2.2.2.2.1,
   duplicate_method_resolution.2.2.2.2.2.2.2.1 "fetch_data_from_api"⟩

end Veracross
